import Mathlib

/-!
# Football league simulator: season simulation, standings view and load

A shallow embedding of `src/main.cpp`.

* The SQLite database behind a connection handle is a `Database`: each of the three
  tables of the schema (`Leagues`, `Teams`, `LeagueTable`) is either absent (`none`,
  statements naming it fail to prepare) or a list of rows.  A `Store` is a database
  that has the whole schema.
* Integer columns are `Int`; text columns may be NULL (`none`).  What the program reads
  through `sqlite3_column_int` is the low 32 bits of the column (`toInt32`).
* `sqlite3_exec` ignores its status in the source; a statement on an absent table
  changes nothing.
* The C library generator (`srand`, `rand`) is not part of the repository and is a
  parameter (`RandLib`); the wall clock read by `time(nullptr)` is an input.
* `std::sort` and `ORDER BY` are modelled by one comparator-driven insertion sort that
  keeps the input order of rows the comparator does not separate.
-/

namespace FootballSim

/-! ## Data structures -/

/-- The `Team` struct. -/
structure Team where
  id : Int
  name : String
  deriving DecidableEq, Repr

/-- A row of the `Teams` table; the name may be NULL. -/
structure TeamRow where
  id : Int
  name : Option String
  deriving DecidableEq, Repr

/-- The `League` struct: a league with its cached team list. -/
structure League where
  id : Int
  name : String
  teams : List Team
  deriving DecidableEq, Repr

/-- A row of the `Leagues` table; the name may be NULL. -/
structure LeagueRow where
  id : Int
  name : Option String
  deriving DecidableEq, Repr

/-- A row of `LeagueTable`: membership of a team in a league and its standings. -/
structure StandingsRow where
  team_id : Int
  league_id : Int
  points : Int
  matches_played : Int
  goals_scored : Int
  goals_conceded : Int
  goal_diff : Int
  deriving DecidableEq, Repr

/-- The contents of a database connection; `none` is a table that does not exist. -/
structure Database where
  Leagues : Option (List LeagueRow)
  Teams : Option (List TeamRow)
  LeagueTable : Option (List StandingsRow)
  deriving DecidableEq, Repr

/-- A store: a database holding the three tables of the schema, `Leagues.id` and
`Teams.id` being primary keys. -/
structure Store where
  Leagues : List LeagueRow
  Teams : List TeamRow
  LeagueTable : List StandingsRow
  leagues_pk : (Leagues.map (·.id)).Nodup
  teams_pk : (Teams.map (·.id)).Nodup

/-- The database of a store. -/
def Store.toDatabase (s : Store) : Database :=
  { Leagues := some s.Leagues, Teams := some s.Teams, LeagueTable := some s.LeagueTable }

/-- The rows of `LeagueTable` (none when the table is absent). -/
def Database.rows (db : Database) : List StandingsRow :=
  db.LeagueTable.getD []

/-- A fresh `:memory:` database: no table yet. -/
def Database.empty : Database :=
  { Leagues := none, Teams := none, LeagueTable := none }

/-- The value `sqlite3_column_int` returns for an integer column: its low 32 bits, as a
C `int`. -/
def toInt32 (x : Int) : Int :=
  (x + 2147483648) % 4294967296 - 2147483648

/-- A column value lies in the range of a C `int`. -/
def InIntRange (x : Int) : Prop :=
  -2147483648 ≤ x ∧ x ≤ 2147483647

/-! ## Sorting -/

/-- Insert `x` in front of the first element that `comp` places after it. -/
def sortInsert {α : Type} (comp : α → α → Bool) (x : α) : List α → List α
  | [] => [x]
  | y :: ys => if comp x y then x :: y :: ys else y :: sortInsert comp x ys

/-- Sort by a strict comparator (`comp a b` reads: `a` goes before `b`), as
`std::sort(first, last, comp)` and `ORDER BY` do: each element in turn is inserted into
the sorted part, behind the elements the comparator does not place after it. -/
def stdSort {α : Type} (comp : α → α → Bool) (l : List α) : List α :=
  l.foldl (fun acc x => sortInsert comp x acc) []

/-! ## Schema accessor: `LoadLeaguesAndTeams` -/

/-- The join `Teams t JOIN LeagueTable lt ON t.id = lt.team_id WHERE lt.league_id = ?`:
every pair of a `Teams` row and a `LeagueTable` row that satisfies both conditions. -/
def joinTeams (teams : List TeamRow) (lt : List StandingsRow) (leagueId : Int) :
    List (TeamRow × StandingsRow) :=
  teams.flatMap (fun t =>
    (lt.filter (fun r => t.id == r.team_id && r.league_id == leagueId)).map (fun r => (t, r)))

/-- The query `SELECT t.id, t.name FROM Teams t JOIN LeagueTable lt ON t.id = lt.team_id
WHERE lt.league_id = ? ORDER BY t.id`, read into `Team` values:
`t.id = sqlite3_column_int(ts, 0)`, `t.name = tn ? tn : ""`. -/
def selectTeams (teams : List TeamRow) (lt : List StandingsRow) (leagueId : Int) : List Team :=
  (stdSort (fun a b => decide (a.id < b.id)) ((joinTeams teams lt leagueId).map Prod.fst)).map
    (fun t => { id := toInt32 t.id, name := t.name.getD "" })

/-- The query `SELECT id, name FROM Leagues ORDER BY id`, read into leagues without teams:
`lg.id = sqlite3_column_int(stmt, 0)`, `lg.name = s ? s : ""`. -/
def selectLeagues (ls : List LeagueRow) : List League :=
  (stdSort (fun a b => decide (a.id < b.id)) ls).map
    (fun r => { id := toInt32 r.id, name := r.name.getD "", teams := [] })

/-- `LoadLeaguesAndTeams(memory_db, leagues)`: the status returned and the new value of
`leagues`.  The list is cleared first; the load fails when one of the two statements
cannot be prepared (binding the league id to the prepared team statement succeeds). -/
def LoadLeaguesAndTeams (db : Database) (_leagues : List League) : Bool × List League :=
  match db.Leagues with
  | none => (false, [])
  | some ls =>
    let leagues := selectLeagues ls
    match db.Teams, db.LeagueTable with
    | some ts, some lt =>
      (true, leagues.map (fun lg => { lg with teams := selectTeams ts lt lg.id }))
    | _, _ => (false, leagues)

/-! ## Season simulator: `SimulateSeasonAllLeagues` -/

/-- The C library generator: `seed s` is the state `srand(s)` leaves, `next g` is the
value `rand()` returns in state `g` and the state it leaves. -/
structure RandLib where
  seed : Nat → Nat
  next : Nat → Nat × Nat

/-- What the simulation threads through its loops: the generator state and the database. -/
structure World where
  rng : Nat
  db : Database

/-- `sqlite3_exec` of `UPDATE LeagueTable SET set WHERE cond`. -/
def execUpdate (cond : StandingsRow → Bool) (set : StandingsRow → StandingsRow)
    (db : Database) : Database :=
  { db with LeagueTable := db.LeagueTable.map (List.map (fun r => if cond r then set r else r)) }

/-- `UPDATE LeagueTable SET points=0, matches_played=0, goals_scored=0, goals_conceded=0,
goal_diff=0 WHERE league_id = leagueId`. -/
def resetLeague (leagueId : Int) (db : Database) : Database :=
  execUpdate (fun r => r.league_id == leagueId)
    (fun r => { r with points := 0, matches_played := 0, goals_scored := 0,
                       goals_conceded := 0, goal_diff := 0 }) db

/-- `hp = (hg > ag ? 3 : (hg < ag ? 0 : 1))`. -/
def homePoints (hg ag : Int) : Int :=
  if hg > ag then 3 else if hg < ag then 0 else 1

/-- `ap = (hg < ag ? 3 : (hg > ag ? 0 : 1))`. -/
def awayPoints (hg ag : Int) : Int :=
  if hg < ag then 3 else if hg > ag then 0 else 1

/-- `UPDATE LeagueTable SET points=points+p, matches_played=matches_played+1,
goals_scored=goals_scored+gs, goals_conceded=goals_conceded+gc
WHERE team_id=team AND league_id=leagueId`. -/
def addResult (p gs gc team leagueId : Int) (db : Database) : Database :=
  execUpdate (fun r => r.team_id == team && r.league_id == leagueId)
    (fun r => { r with points := r.points + p, matches_played := r.matches_played + 1,
                       goals_scored := r.goals_scored + gs,
                       goals_conceded := r.goals_conceded + gc }) db

/-- `UPDATE LeagueTable SET goal_diff = goals_scored - goals_conceded
WHERE team_id IN(home,away) AND league_id=leagueId`. -/
def recomputeGoalDiff (home away leagueId : Int) (db : Database) : Database :=
  execUpdate (fun r => (r.team_id == home || r.team_id == away) && r.league_id == leagueId)
    (fun r => { r with goal_diff := r.goals_scored - r.goals_conceded }) db

/-- The three statements of one fixture, for the goals `hg`, `ag`. -/
def recordResult (leagueId home away hg ag : Int) (db : Database) : Database :=
  recomputeGoalDiff home away leagueId
    (addResult (awayPoints hg ag) ag hg away leagueId
      (addResult (homePoints hg ag) hg ag home leagueId db))

/-- `hg = rand() % 4; ag = rand() % 4`: the goals and the generator state left. -/
def drawGoals (lib : RandLib) (g : Nat) : Int × Int × Nat :=
  let r1 := lib.next g
  let r2 := lib.next r1.2
  (((r1.1 % 4 : Nat) : Int), ((r2.1 % 4 : Nat) : Int), r2.2)

/-- The body of the inner loop for one fixture. -/
def playFixture (lib : RandLib) (leagueId : Int) (home away : Team) (w : World) : World :=
  let d := drawGoals lib w.rng
  { rng := d.2.2, db := recordResult leagueId home.id away.id d.1 d.2.1 w.db }

/-- The loop nest `for i < teams.size() { for j < teams.size() { if (i == j) continue; ... } }`
running `body teams[i] teams[j]`. -/
def forEachFixture {σ : Type} (teams : List Team) (body : Team → Team → σ → σ) (st : σ) : σ :=
  (List.range teams.length).foldl (fun st i =>
    (List.range teams.length).foldl (fun st j =>
      if i = j then st
      else match teams[i]?, teams[j]? with
        | some home, some away => body home away st
        | _, _ => st) st) st

/-- The fixtures of a team list: the `(home, away)` pairs the loop nest visits, in order
(the loop nest run with a body that records the pair). -/
def fixturesPlayed (teams : List Team) : List (Team × Team) :=
  forEachFixture teams (fun home away log => log ++ [(home, away)]) []

/-- One iteration of `for (auto& lg : leagues)`: reset, then every fixture. -/
def simulateLeague (lib : RandLib) (lg : League) (w : World) : World :=
  forEachFixture lg.teams (playFixture lib lg.id) { w with db := resetLeague lg.id w.db }

/-- The loop `for (auto& lg : leagues)`. -/
def simulateLeagues (lib : RandLib) (leagues : List League) (w : World) : World :=
  leagues.foldl (fun w lg => simulateLeague lib lg w) w

/-- The state `SimulateSeasonAllLeagues` leaves. -/
structure SimResult where
  rng : Nat
  db : Database
  leagues : List League

/-- `srand(s)` in generator state `g`: the state is replaced by the one the seed fixes. -/
def srand (lib : RandLib) (s : Nat) (_g : Nat) : Nat :=
  lib.seed s

/-- `SimulateSeasonAllLeagues(memory_db, leagues)` called at clock value `now` with the
generator in state `g`: `srand((unsigned)time(nullptr))`, the loop over the leagues
(`BEGIN TRANSACTION` and `COMMIT` leave the rows as they are), then the reload. -/
def SimulateSeasonAllLeagues (lib : RandLib) (now : Nat) (g : Nat) (db : Database)
    (leagues : List League) : SimResult :=
  let g0 := srand lib (now % 2 ^ 32) g
  let w := simulateLeagues lib leagues { rng := g0, db := db }
  { rng := w.rng, db := w.db, leagues := (LoadLeaguesAndTeams w.db leagues).2 }

/-! ## Standings view: `RenderLeagueTable` -/

/-- The local `Row` struct of `RenderLeagueTable`. -/
structure Row where
  name : String
  p : Int
  mp : Int
  gs : Int
  gc : Int
  gd : Int
  deriving DecidableEq, Repr

/-- How `RenderLeagueTable` can fail to display rows: the statement cannot be prepared
(the error text is shown), or a team name is NULL and `r.name = (const char*)
sqlite3_column_text(stmt, 0)` builds a `std::string` from a null pointer. -/
inductive RenderError where
  | prepareFailed
  | nullName
  deriving DecidableEq, Repr

/-- The loop `while (sqlite3_step(stmt) == SQLITE_ROW)` over the rows of `SELECT t.name,
lt.points, lt.matches_played, lt.goals_scored, lt.goals_conceded, lt.goal_diff FROM Teams
t JOIN LeagueTable lt ON t.id = lt.team_id WHERE lt.league_id = leagueId`: each
statistic is read through `sqlite3_column_int`. -/
def readStandings : List (TeamRow × StandingsRow) → Except RenderError (List Row)
  | [] => .ok []
  | (t, r) :: rest =>
    match t.name with
    | none => .error .nullName
    | some n =>
      match readStandings rest with
      | .error e => .error e
      | .ok rows =>
        .ok ({ name := n, p := toInt32 r.points, mp := toInt32 r.matches_played,
               gs := toInt32 r.goals_scored, gc := toInt32 r.goals_conceded,
               gd := toInt32 r.goal_diff } :: rows)

/-- `RenderLeagueTable(memory_db, lg)`: the rows displayed, in display order, or the
way the call fails. -/
def RenderLeagueTable (db : Database) (lg : League) : Except RenderError (List Row) :=
  match db.Teams, db.LeagueTable with
  | some ts, some lt =>
    match readStandings (joinTeams ts lt lg.id) with
    | .error e => .error e
    | .ok rows => .ok (stdSort (fun a b => decide (a.p > b.p)) rows)
  | _, _ => .error .prepareFailed

/-! ## Persistence bridge: `LoadFileDBToMemory` -/

/-- The outcomes of the SQLite calls of a load that the program does not control. -/
structure SqliteEnv where
  /-- Whether `sqlite3_open(":memory:", &memory_db)` returns `SQLITE_OK`. -/
  openMemoryOk : Bool
  /-- The handle `sqlite3_open(":memory:", ...)` leaves when it fails. -/
  openMemoryFailed : Option Database
  /-- The database `sqlite3_open(filename, ...)` opens, `none` when it fails. -/
  openFile : String → Option Database
  /-- Whether `sqlite3_backup_init` returns a backup object. -/
  backupInitOk : Bool
  /-- Whether `sqlite3_backup_step(b, -1)` returns `SQLITE_DONE`. -/
  backupStepDone : Bool

/-- The application state a load works on: the `memory_db` handle (`none` is `nullptr`)
and the cached league list. -/
structure AppState where
  memory_db : Option Database
  leagues : List League
  deriving DecidableEq, Repr

/-- `CloseMemoryDB(memory_db, leagues)`. -/
def CloseMemoryDB (_st : AppState) : AppState :=
  { memory_db := none, leagues := [] }

/-- `LoadFileDBToMemory(filename, memory_db, leagues)`: the status returned and the
state left. -/
def LoadFileDBToMemory (env : SqliteEnv) (filename : String) (st : AppState) :
    Bool × AppState :=
  let st := if st.memory_db.isSome then CloseMemoryDB st else st
  if !env.openMemoryOk then
    (false, { st with memory_db := env.openMemoryFailed })
  else
    match env.openFile filename with
    | none => (false, { st with memory_db := none })
    | some file =>
      if !env.backupInitOk then
        (false, { st with memory_db := none })
      else if !env.backupStepDone then
        (false, { st with memory_db := none })
      else
        let r := LoadLeaguesAndTeams file st.leagues
        (r.1, { memory_db := some file, leagues := r.2 })

/-! ## Row-level view of the simulation -/

/-- Apply a row function to every row of `LeagueTable`. -/
def mapRows (f : StandingsRow → StandingsRow) (db : Database) : Database :=
  { db with LeagueTable := db.LeagueTable.map (List.map f) }

/-- The effect of the reset statement on one row. -/
def rowReset (leagueId : Int) (r : StandingsRow) : StandingsRow :=
  if r.league_id == leagueId then
    { r with points := 0, matches_played := 0, goals_scored := 0, goals_conceded := 0,
             goal_diff := 0 }
  else r

/-- The effect of the three statements of a fixture on one row. -/
def rowRecord (leagueId home away hg ag : Int) (r : StandingsRow) : StandingsRow :=
  let r1 := if r.team_id == home && r.league_id == leagueId then
      { r with points := r.points + homePoints hg ag, matches_played := r.matches_played + 1,
               goals_scored := r.goals_scored + hg, goals_conceded := r.goals_conceded + ag }
    else r
  let r2 := if r1.team_id == away && r1.league_id == leagueId then
      { r1 with points := r1.points + awayPoints hg ag, matches_played := r1.matches_played + 1,
                goals_scored := r1.goals_scored + ag, goals_conceded := r1.goals_conceded + hg }
    else r1
  if (r2.team_id == home || r2.team_id == away) && r2.league_id == leagueId then
    { r2 with goal_diff := r2.goals_scored - r2.goals_conceded }
  else r2

/-- The effect on one row of playing the fixtures `fx` of a league from generator state `g`. -/
def rowPlay (lib : RandLib) (leagueId : Int) : List (Team × Team) → Nat → StandingsRow → StandingsRow
  | [], _, r => r
  | p :: ps, g, r =>
    rowPlay lib leagueId ps (drawGoals lib g).2.2
      (rowRecord leagueId p.1.id p.2.id (drawGoals lib g).1 (drawGoals lib g).2.1 r)

/-- The generator state after the draws of the fixtures `fx`. -/
def rngPlay (lib : RandLib) : List (Team × Team) → Nat → Nat
  | [], g => g
  | _ :: ps, g => rngPlay lib ps (drawGoals lib g).2.2

/-- The fixture of the index pair `(i, j)`, none on the diagonal. -/
def fixtureAt (teams : List Team) (i j : Nat) : Option (Team × Team) :=
  if i = j then none
  else match teams[i]?, teams[j]? with
    | some home, some away => some (home, away)
    | _, _ => none

/-- The fixtures in loop order, as a list comprehension over the index pairs. -/
def fixtureList (teams : List Team) : List (Team × Team) :=
  (List.range teams.length).flatMap (fun i =>
    (List.range teams.length).filterMap (fun j => fixtureAt teams i j))

/-- The effect of one league iteration on one row. -/
def rowLeague (lib : RandLib) (lg : League) (g : Nat) (r : StandingsRow) : StandingsRow :=
  rowPlay lib lg.id (fixtureList lg.teams) g (rowReset lg.id r)

/-- The effect of the league loop on one row. -/
def rowLeagues (lib : RandLib) : List League → Nat → StandingsRow → StandingsRow
  | [], _, r => r
  | lg :: ls, g, r =>
    rowLeagues lib ls (rngPlay lib (fixtureList lg.teams) g) (rowLeague lib lg g r)

/-- The generator state after the league loop. -/
def rngLeagues (lib : RandLib) : List League → Nat → Nat
  | [], g => g
  | lg :: ls, g => rngLeagues lib ls (rngPlay lib (fixtureList lg.teams) g)

/-- The ordered pairs of teams with different ids, home in list order and, for each
home, away in list order. -/
def orderedPairs (teams : List Team) : List (Team × Team) :=
  teams.flatMap (fun h => (teams.filter (fun a => decide (a.id ≠ h.id))).map (fun a => (h, a)))

/-- The points a fixture awards in all: 2 for a draw, 3 for a decisive result. -/
def fixtureTotal (d : Int × Int × Nat) : Int := if d.1 = d.2.1 then 2 else 3

/-- The team list `LoadLeaguesAndTeams` reads for the league id `leagueId`: the result of
the team query, empty when a table of the join is absent. -/
def loadedTeams (db : Database) (leagueId : Int) : List Team :=
  match db.Teams, db.LeagueTable with
  | some ts, some lt => selectTeams ts lt leagueId
  | _, _ => []

/-- The ids of the league's joined teams lie in the range of a C `int`. -/
def TeamIdsInRange (teams : List TeamRow) (lt : List StandingsRow) (L : Int) : Prop :=
  ∀ t ∈ teams, ∀ r ∈ lt, t.id = r.team_id → r.league_id = L → InIntRange t.id

/-- The rows of the Teams-LeagueTable join for a league id, in the words of the claim:
the pairs of a `Teams` row and a `LeagueTable` row of the store with `t.id = lt.team_id`
and `lt.league_id` the league id. -/
def joinOfStore (s : Store) (leagueId : Int) : List (TeamRow × StandingsRow) :=
  (List.product s.Teams s.LeagueTable).filter
    (fun p => p.1.id == p.2.team_id && p.2.league_id == leagueId)

/-- The membership a standings row records. -/
def StandingsRow.key (r : StandingsRow) : Int × Int := (r.team_id, r.league_id)

/-- The standings rows of a league. -/
def leagueRows (db : Database) (leagueId : Int) : List StandingsRow :=
  db.rows.filter (fun r => r.league_id == leagueId)

/-- Goals scored and goals conceded add up to the same over a list of rows. -/
def Balanced (rows : List StandingsRow) : Prop :=
  (rows.map (·.goals_scored)).sum = (rows.map (·.goals_conceded)).sum

/-! ## Sample data -/

/-- A generator that returns its state and counts up: 0, 1, 2, ... after `srand(0)`. -/
def counterLib : RandLib := { seed := fun s => s, next := fun g => (g, g + 1) }

/-- A generator whose home side always scores one goal and the away side none. -/
def homeWinLib : RandLib := { seed := fun _ => 0, next := fun g => (1 - g % 2, g + 1) }

/-- Team A, id 1. -/
def teamA : Team := { id := 1, name := "A" }

/-- Team B, id 2. -/
def teamB : Team := { id := 2, name := "B" }

/-- A league of the two teams A and B. -/
def leagueAB : League := { id := 1, name := "L", teams := [teamA, teamB] }

/-- A store with one league of two teams, whose rows hold the values of an earlier season. -/
def sampleStore : Store :=
  { Leagues := [{ id := 1, name := some "L" }],
    Teams := [{ id := 1, name := some "A" }, { id := 2, name := some "B" }],
    leagues_pk := by decide,
    teams_pk := by decide,
    LeagueTable :=
      [{ team_id := 1, league_id := 1, points := 9, matches_played := 9, goals_scored := 9,
         goals_conceded := 9, goal_diff := 9 },
       { team_id := 2, league_id := 1, points := 7, matches_played := 7, goals_scored := 7,
         goals_conceded := 7, goal_diff := 7 }] }

/-- The same memberships as `sampleStore`, with all values at zero. -/
def freshStore : Store :=
  { Leagues := [{ id := 1, name := some "L" }],
    Teams := [{ id := 1, name := some "A" }, { id := 2, name := some "B" }],
    leagues_pk := by decide,
    teams_pk := by decide,
    LeagueTable :=
      [{ team_id := 1, league_id := 1, points := 0, matches_played := 0, goals_scored := 0,
         goals_conceded := 0, goal_diff := 0 },
       { team_id := 2, league_id := 1, points := 0, matches_played := 0, goals_scored := 0,
         goals_conceded := 0, goal_diff := 0 }] }

/-- A store whose team A has an id above the range of a C `int` (2^32 + 1). -/
def wideIdStore : Store :=
  { Leagues := [{ id := 1, name := some "L" }],
    Teams := [{ id := 2, name := some "B" }, { id := 4294967297, name := some "A" }],
    leagues_pk := by decide,
    teams_pk := by decide,
    LeagueTable :=
      [{ team_id := 2, league_id := 1, points := 0, matches_played := 0, goals_scored := 0,
         goals_conceded := 0, goal_diff := 0 },
       { team_id := 4294967297, league_id := 1, points := 0, matches_played := 0,
         goals_scored := 0, goals_conceded := 0, goal_diff := 0 }] }

/-- A store whose team A holds a number of points above the range of a C `int`
(2^32 + 1); team B holds 5 points. -/
def widePointsStore : Store :=
  { Leagues := [{ id := 1, name := some "L" }],
    Teams := [{ id := 1, name := some "A" }, { id := 2, name := some "B" }],
    leagues_pk := by decide,
    teams_pk := by decide,
    LeagueTable :=
      [{ team_id := 1, league_id := 1, points := 4294967297, matches_played := 2,
         goals_scored := 0, goals_conceded := 0, goal_diff := 0 },
       { team_id := 2, league_id := 1, points := 5, matches_played := 2, goals_scored := 0,
         goals_conceded := 0, goal_diff := 0 }] }

/-- A store whose only team has a NULL name. -/
def namelessStore : Store :=
  { Leagues := [{ id := 1, name := some "L" }],
    Teams := [{ id := 1, name := none }],
    leagues_pk := by decide,
    teams_pk := by decide,
    LeagueTable :=
      [{ team_id := 1, league_id := 1, points := 0, matches_played := 0, goals_scored := 0,
         goals_conceded := 0, goal_diff := 0 }] }

/-- The row of team A after the sample store is simulated with `counterLib` at clock 0. -/
def rowAfterA : StandingsRow :=
  { team_id := 1, league_id := 1, points := 3, matches_played := 2, goals_scored := 3,
    goals_conceded := 3, goal_diff := 0 }

/-- The row of team A after two home wins by one goal to nil. -/
def rowWinA : StandingsRow :=
  { team_id := 1, league_id := 1, points := 3, matches_played := 2, goals_scored := 1,
    goals_conceded := 1, goal_diff := 0 }

/-- The row of team B after two home wins by one goal to nil. -/
def rowWinB : StandingsRow :=
  { team_id := 2, league_id := 1, points := 3, matches_played := 2, goals_scored := 1,
    goals_conceded := 1, goal_diff := 0 }

/-- All SQLite calls succeed and every path opens an empty database (what
`sqlite3_open` creates for a path that does not exist). -/
def emptyFileEnv : SqliteEnv :=
  { openMemoryOk := true, openMemoryFailed := none, openFile := fun _ => some Database.empty,
    backupInitOk := true, backupStepDone := true }

/-- A database file that has a `Leagues` table with one league and no other table. -/
def leaguesOnlyDb : Database :=
  { Leagues := some [{ id := 1, name := some "L" }], Teams := none, LeagueTable := none }

/-- All SQLite calls succeed and every path opens `leaguesOnlyDb`. -/
def leaguesOnlyEnv : SqliteEnv :=
  { openMemoryOk := true, openMemoryFailed := none, openFile := fun _ => some leaguesOnlyDb,
    backupInitOk := true, backupStepDone := true }

/-- The application after a successful load of the sample store. -/
def sampleApp : AppState :=
  { memory_db := some sampleStore.toDatabase, leagues := [leagueAB] }

/-- A league without standings rows in the sample store. -/
def leagueEmpty : League := { id := 2, name := "M", teams := [] }

/-! ## Sorting: the result is a permutation, ordered by the comparator -/

theorem sortInsert_perm {α : Type} (comp : α → α → Bool) (x : α) (l : List α) :
    (sortInsert comp x l).Perm (x :: l) := by
  induction l with
  | nil => simp [sortInsert]
  | cons y ys ih =>
    unfold sortInsert
    split
    · exact List.Perm.refl _
    · exact (List.Perm.cons y ih).trans (List.Perm.swap x y ys)

theorem foldl_sortInsert_perm {α : Type} (comp : α → α → Bool) (l acc : List α) :
    (l.foldl (fun acc x => sortInsert comp x acc) acc).Perm (l ++ acc) := by
  induction l generalizing acc with
  | nil => simp
  | cons x xs ih =>
    rw [List.foldl_cons]
    refine (ih (sortInsert comp x acc)).trans ?_
    refine ((sortInsert_perm comp x acc).append_left xs).trans ?_
    exact List.perm_middle

theorem stdSort_perm {α : Type} (comp : α → α → Bool) (l : List α) :
    (stdSort comp l).Perm l := by
  unfold stdSort
  simpa using foldl_sortInsert_perm comp l []

theorem sortInsert_pairwise {α : Type} (comp : α → α → Bool)
    (hasymm : ∀ a b, comp a b = true → comp b a = false)
    (htrans : ∀ a b c, comp b a = false → comp c b = false → comp c a = false)
    (x : α) (l : List α) (hl : l.Pairwise (fun a b => comp b a = false)) :
    (sortInsert comp x l).Pairwise (fun a b => comp b a = false) := by
  induction l with
  | nil => simp [sortInsert]
  | cons y ys ih =>
    rw [List.pairwise_cons] at hl
    unfold sortInsert
    split
    · rename_i hxy
      have hyx : comp y x = false := hasymm x y hxy
      refine List.pairwise_cons.2 ⟨?_, List.pairwise_cons.2 hl⟩
      intro z hz
      rcases List.mem_cons.1 hz with rfl | hz
      · exact hyx
      · exact htrans x y z hyx (hl.1 z hz)
    · rename_i hxy
      have hxy' : comp x y = false := by simpa using hxy
      refine List.pairwise_cons.2 ⟨?_, ih hl.2⟩
      intro z hz
      rcases List.mem_cons.1 ((sortInsert_perm comp x ys).subset hz) with rfl | hz
      · exact hxy'
      · exact hl.1 z hz

theorem stdSort_pairwise {α : Type} (comp : α → α → Bool)
    (hasymm : ∀ a b, comp a b = true → comp b a = false)
    (htrans : ∀ a b c, comp b a = false → comp c b = false → comp c a = false)
    (l : List α) : (stdSort comp l).Pairwise (fun a b => comp b a = false) := by
  unfold stdSort
  have gen : ∀ (l acc : List α), acc.Pairwise (fun a b => comp b a = false) →
      (l.foldl (fun acc x => sortInsert comp x acc) acc).Pairwise
        (fun a b => comp b a = false) := by
    intro l
    induction l with
    | nil => exact fun acc h => h
    | cons x xs ih =>
      intro acc h
      exact ih _ (sortInsert_pairwise comp hasymm htrans x acc h)
  exact gen l [] List.Pairwise.nil

/-! ## Rows after an update -/

theorem mapRows_rows (f : StandingsRow → StandingsRow) (db : Database) :
    (mapRows f db).rows = db.rows.map f := by
  cases db with
  | mk ls ts lt => cases lt <;> simp [mapRows, Database.rows]

theorem mapRows_mapRows (f g : StandingsRow → StandingsRow) (db : Database) :
    mapRows f (mapRows g db) = mapRows (f ∘ g) db := by
  cases db with
  | mk ls ts lt => cases lt <;> simp [mapRows]

theorem mapRows_id (db : Database) : mapRows (fun r => r) db = db := by
  cases db with
  | mk ls ts lt => cases lt <;> simp [mapRows]

theorem execUpdate_eq_mapRows (cond : StandingsRow → Bool) (set : StandingsRow → StandingsRow)
    (db : Database) : execUpdate cond set db = mapRows (fun r => if cond r then set r else r) db :=
  rfl

theorem resetLeague_eq (leagueId : Int) (db : Database) :
    resetLeague leagueId db = mapRows (rowReset leagueId) db := rfl

theorem recordResult_eq (leagueId home away hg ag : Int) (db : Database) :
    recordResult leagueId home away hg ag db = mapRows (rowRecord leagueId home away hg ag) db := by
  unfold recordResult recomputeGoalDiff addResult
  rw [execUpdate_eq_mapRows, execUpdate_eq_mapRows, execUpdate_eq_mapRows, mapRows_mapRows,
    mapRows_mapRows]
  rfl

theorem loopNest_eq_foldl {σ : Type} (teams : List Team) (body : Team → Team → σ → σ)
    (is js : List Nat) (st : σ) :
    is.foldl (fun st i =>
      js.foldl (fun st j =>
        if i = j then st
        else match teams[i]?, teams[j]? with
          | some home, some away => body home away st
          | _, _ => st) st) st
      = (is.flatMap (fun i => js.filterMap (fun j => fixtureAt teams i j))).foldl
          (fun st p => body p.1 p.2 st) st := by
  induction is generalizing st with
  | nil => simp
  | cons i is ih =>
    rw [List.foldl_cons, ih, List.flatMap_cons, List.foldl_append]
    congr 1
    clear ih
    induction js generalizing st with
    | nil => simp
    | cons j js ihj =>
      rw [List.foldl_cons, ihj, List.filterMap_cons]
      unfold fixtureAt
      by_cases hij : i = j
      · simp [hij]
      · simp only [hij, if_false]
        cases teams[i]? <;> cases teams[j]? <;> simp

/-- The loop nest is a fold over the list of fixtures. -/
theorem forEachFixture_eq_foldl {σ : Type} (teams : List Team) (body : Team → Team → σ → σ)
    (st : σ) :
    forEachFixture teams body st
      = (fixtureList teams).foldl (fun st p => body p.1 p.2 st) st :=
  loopNest_eq_foldl teams body _ _ st

theorem foldl_log {α : Type} (l acc : List α) :
    l.foldl (fun log p => log ++ [p]) acc = acc ++ l := by
  induction l generalizing acc with
  | nil => simp
  | cons x xs ih => simp [ih]

theorem fixturesPlayed_eq (teams : List Team) : fixturesPlayed teams = fixtureList teams := by
  unfold fixturesPlayed
  rw [forEachFixture_eq_foldl]
  exact (foldl_log (fixtureList teams) []).trans (by simp)

theorem foldl_playFixture (lib : RandLib) (leagueId : Int) (fx : List (Team × Team)) (w : World) :
    fx.foldl (fun w p => playFixture lib leagueId p.1 p.2 w) w
      = { rng := rngPlay lib fx w.rng, db := mapRows (rowPlay lib leagueId fx w.rng) w.db } := by
  induction fx generalizing w with
  | nil => simp [rngPlay, rowPlay, mapRows_id]
  | cons p ps ih =>
    rw [List.foldl_cons, ih]
    simp only [playFixture, rngPlay, recordResult_eq, mapRows_mapRows]
    rfl

theorem simulateLeague_eq (lib : RandLib) (lg : League) (w : World) :
    simulateLeague lib lg w
      = { rng := rngPlay lib (fixtureList lg.teams) w.rng,
          db := mapRows (rowLeague lib lg w.rng) w.db } := by
  unfold simulateLeague
  rw [forEachFixture_eq_foldl, foldl_playFixture, resetLeague_eq, mapRows_mapRows]
  rfl

theorem simulateLeagues_eq (lib : RandLib) (leagues : List League) (w : World) :
    simulateLeagues lib leagues w
      = { rng := rngLeagues lib leagues w.rng,
          db := mapRows (rowLeagues lib leagues w.rng) w.db } := by
  unfold simulateLeagues
  induction leagues generalizing w with
  | nil => simp [rngLeagues, rowLeagues, mapRows_id]
  | cons lg ls ih =>
    rw [List.foldl_cons, ih, simulateLeague_eq]
    simp only [rngLeagues, mapRows_mapRows]
    rfl

/-- The rows left by a simulation: every row of the table, transformed on its own. -/
theorem simulate_rows (lib : RandLib) (now g : Nat) (db : Database) (leagues : List League) :
    (SimulateSeasonAllLeagues lib now g db leagues).db.rows
      = db.rows.map (rowLeagues lib leagues (lib.seed (now % 2 ^ 32))) := by
  unfold SimulateSeasonAllLeagues
  simp only [simulateLeagues_eq, mapRows_rows, srand]

/-! ## One row through a fixture -/

theorem rowReset_team_id (L : Int) (r : StandingsRow) : (rowReset L r).team_id = r.team_id := by
  unfold rowReset; split <;> rfl

theorem rowReset_league_id (L : Int) (r : StandingsRow) :
    (rowReset L r).league_id = r.league_id := by
  unfold rowReset; split <;> rfl

theorem rowReset_of_ne (L : Int) (r : StandingsRow) (h : r.league_id ≠ L) : rowReset L r = r := by
  simp [rowReset, h]

theorem rowReset_of_eq (L : Int) (r : StandingsRow) (h : r.league_id = L) :
    rowReset L r = { team_id := r.team_id, league_id := r.league_id, points := 0,
                     matches_played := 0, goals_scored := 0, goals_conceded := 0,
                     goal_diff := 0 } := by
  simp [rowReset, h]

theorem rowRecord_team_id (L home away hg ag : Int) (r : StandingsRow) :
    (rowRecord L home away hg ag r).team_id = r.team_id := by
  simp only [rowRecord]; split_ifs <;> rfl

theorem rowRecord_league_id (L home away hg ag : Int) (r : StandingsRow) :
    (rowRecord L home away hg ag r).league_id = r.league_id := by
  simp only [rowRecord]; split_ifs <;> rfl

theorem rowRecord_of_ne (L home away hg ag : Int) (r : StandingsRow) (h : r.league_id ≠ L) :
    rowRecord L home away hg ag r = r := by
  simp [rowRecord, h]

theorem rowRecord_goal_diff (L home away hg ag : Int) (r : StandingsRow)
    (h : r.goal_diff = r.goals_scored - r.goals_conceded) :
    (rowRecord L home away hg ag r).goal_diff
      = (rowRecord L home away hg ag r).goals_scored
        - (rowRecord L home away hg ag r).goals_conceded := by
  simp only [rowRecord]
  split_ifs <;> simp_all

theorem rowRecord_matches_played (L home away hg ag : Int) (r : StandingsRow)
    (h : r.league_id = L) :
    (rowRecord L home away hg ag r).matches_played
      = r.matches_played + (if r.team_id = home then 1 else 0)
        + (if r.team_id = away then 1 else 0) := by
  simp only [rowRecord]
  split_ifs <;> simp_all

theorem rowRecord_points (L home away hg ag : Int) (r : StandingsRow) :
    (rowRecord L home away hg ag r).points
      = r.points + (if r.team_id = home ∧ r.league_id = L then homePoints hg ag else 0)
        + (if r.team_id = away ∧ r.league_id = L then awayPoints hg ag else 0) := by
  simp only [rowRecord]
  split_ifs <;> simp_all

theorem rowRecord_goals_scored (L home away hg ag : Int) (r : StandingsRow) :
    (rowRecord L home away hg ag r).goals_scored
      = r.goals_scored + (if r.team_id = home ∧ r.league_id = L then hg else 0)
        + (if r.team_id = away ∧ r.league_id = L then ag else 0) := by
  simp only [rowRecord]
  split_ifs <;> simp_all

theorem rowRecord_goals_conceded (L home away hg ag : Int) (r : StandingsRow) :
    (rowRecord L home away hg ag r).goals_conceded
      = r.goals_conceded + (if r.team_id = home ∧ r.league_id = L then ag else 0)
        + (if r.team_id = away ∧ r.league_id = L then hg else 0) := by
  simp only [rowRecord]
  split_ifs <;> simp_all

/-! ## One row through the fixtures of a league -/

theorem rowPlay_team_id (lib : RandLib) (L : Int) (fx : List (Team × Team)) (g : Nat)
    (r : StandingsRow) : (rowPlay lib L fx g r).team_id = r.team_id := by
  induction fx generalizing g r with
  | nil => rfl
  | cons p ps ih => simp only [rowPlay]; rw [ih, rowRecord_team_id]

theorem rowPlay_league_id (lib : RandLib) (L : Int) (fx : List (Team × Team)) (g : Nat)
    (r : StandingsRow) : (rowPlay lib L fx g r).league_id = r.league_id := by
  induction fx generalizing g r with
  | nil => rfl
  | cons p ps ih => simp only [rowPlay]; rw [ih, rowRecord_league_id]

theorem rowPlay_of_ne (lib : RandLib) (L : Int) (fx : List (Team × Team)) (g : Nat)
    (r : StandingsRow) (h : r.league_id ≠ L) : rowPlay lib L fx g r = r := by
  induction fx generalizing g with
  | nil => rfl
  | cons p ps ih => simp only [rowPlay]; rw [rowRecord_of_ne _ _ _ _ _ _ h, ih]

theorem rowPlay_goal_diff (lib : RandLib) (L : Int) (fx : List (Team × Team)) (g : Nat)
    (r : StandingsRow) (h : r.goal_diff = r.goals_scored - r.goals_conceded) :
    (rowPlay lib L fx g r).goal_diff
      = (rowPlay lib L fx g r).goals_scored - (rowPlay lib L fx g r).goals_conceded := by
  induction fx generalizing g r with
  | nil => exact h
  | cons p ps ih => simp only [rowPlay]; exact ih _ _ (rowRecord_goal_diff _ _ _ _ _ _ h)

theorem rowPlay_matches_played (lib : RandLib) (L : Int) (fx : List (Team × Team)) (g : Nat)
    (r : StandingsRow) (h : r.league_id = L) :
    (rowPlay lib L fx g r).matches_played
      = r.matches_played + (fx.countP (fun p => p.1.id == r.team_id) : Nat)
        + (fx.countP (fun p => p.2.id == r.team_id) : Nat) := by
  induction fx generalizing g r with
  | nil => simp [rowPlay]
  | cons p ps ih =>
    simp only [rowPlay]
    rw [ih _ _ (by rw [rowRecord_league_id]; exact h), rowRecord_matches_played _ _ _ _ _ _ h,
      rowRecord_team_id, List.countP_cons, List.countP_cons]
    have e1 : (if r.team_id = p.1.id then (1 : Int) else 0)
        = ((if (p.1.id == r.team_id) = true then 1 else 0 : Nat) : Int) := by
      by_cases h1 : p.1.id = r.team_id
      · simp [h1]
      · have h1' : ¬ r.team_id = p.1.id := fun h' => h1 h'.symm
        simp [h1, h1']
    have e2 : (if r.team_id = p.2.id then (1 : Int) else 0)
        = ((if (p.2.id == r.team_id) = true then 1 else 0 : Nat) : Int) := by
      by_cases h2 : p.2.id = r.team_id
      · simp [h2]
      · have h2' : ¬ r.team_id = p.2.id := fun h' => h2 h'.symm
        simp [h2, h2']
    rw [e1, e2]
    push_cast
    ring

/-! ## One row through the league loop -/

theorem rowLeague_team_id (lib : RandLib) (lg : League) (g : Nat) (r : StandingsRow) :
    (rowLeague lib lg g r).team_id = r.team_id := by
  unfold rowLeague; rw [rowPlay_team_id, rowReset_team_id]

theorem rowLeague_league_id (lib : RandLib) (lg : League) (g : Nat) (r : StandingsRow) :
    (rowLeague lib lg g r).league_id = r.league_id := by
  unfold rowLeague; rw [rowPlay_league_id, rowReset_league_id]

theorem rowLeague_of_ne (lib : RandLib) (lg : League) (g : Nat) (r : StandingsRow)
    (h : r.league_id ≠ lg.id) : rowLeague lib lg g r = r := by
  unfold rowLeague; rw [rowReset_of_ne _ _ h, rowPlay_of_ne _ _ _ _ _ h]

theorem rowLeagues_team_id (lib : RandLib) (ls : List League) (g : Nat) (r : StandingsRow) :
    (rowLeagues lib ls g r).team_id = r.team_id := by
  induction ls generalizing g r with
  | nil => rfl
  | cons lg ls ih => simp only [rowLeagues]; rw [ih, rowLeague_team_id]

theorem rowLeagues_league_id (lib : RandLib) (ls : List League) (g : Nat) (r : StandingsRow) :
    (rowLeagues lib ls g r).league_id = r.league_id := by
  induction ls generalizing g r with
  | nil => rfl
  | cons lg ls ih => simp only [rowLeagues]; rw [ih, rowLeague_league_id]

/-- A property of a row that every iteration for league `L` establishes, and that the
iterations for other leagues leave alone, holds after the loop as soon as the loop
has an iteration for `L` (or the property held before). -/
theorem rowLeagues_establish (lib : RandLib) (L : Int) (Q : StandingsRow → Prop)
    (ls : List League) (g : Nat) (r : StandingsRow) (hr : r.league_id = L)
    (hest : ∀ lg ∈ ls, lg.id = L → ∀ g r, r.league_id = L → Q (rowLeague lib lg g r))
    (h : Q r ∨ ∃ lg ∈ ls, lg.id = L) : Q (rowLeagues lib ls g r) := by
  induction ls generalizing g r with
  | nil =>
    rcases h with h | ⟨lg, hlg, _⟩
    · exact h
    · simp at hlg
  | cons lg ls ih =>
    simp only [rowLeagues]
    apply ih _ _ (by rw [rowLeague_league_id]; exact hr)
      (fun l hl => hest l (List.mem_cons_of_mem _ hl))
    by_cases hid : lg.id = L
    · exact Or.inl (hest lg (List.mem_cons_self _ _) hid g r hr)
    · rw [rowLeague_of_ne _ _ _ _ (by rw [hr]; exact fun h' => hid h'.symm)]
      rcases h with h | ⟨l, hl, hlid⟩
      · exact Or.inl h
      · rcases List.mem_cons.1 hl with rfl | hl
        · exact absurd hlid hid
        · exact Or.inr ⟨l, hl, hlid⟩

/-! ## The fixture list of a team list -/

theorem range_map_getElem? {α : Type} (xs : List α) :
    (List.range xs.length).map (fun i => xs[i]?) = xs.map some := by
  apply List.ext_getElem?
  intro k
  by_cases hk : k < xs.length
  · simp [List.getElem?_map, List.getElem?_range hk, List.getElem?_eq_getElem hk]
  · have hk' : xs.length ≤ k := Nat.le_of_not_lt hk
    simp [List.getElem?_map, List.getElem?_eq_none, hk']

theorem fixtureList_mem (teams : List Team) (p : Team × Team) (hp : p ∈ fixtureList teams) :
    p.1 ∈ teams ∧ p.2 ∈ teams := by
  unfold fixtureList at hp
  rw [List.mem_flatMap] at hp
  obtain ⟨i, _, hp⟩ := hp
  rw [List.mem_filterMap] at hp
  obtain ⟨j, _, hp⟩ := hp
  unfold fixtureAt at hp
  split at hp
  · simp at hp
  · split at hp
    · rename_i home away hi hj
      simp only [Option.some.injEq] at hp
      subst hp
      exact ⟨List.getElem?_mem hi, List.getElem?_mem hj⟩
    · simp at hp

theorem filterMap_ite_eq_map_filter {α β : Type} (p : α → Prop) [DecidablePred p] (f : α → β)
    (l : List α) :
    l.filterMap ((fun o : Option α => o.bind (fun a => if p a then some (f a) else none)) ∘ some)
      = (l.filter (fun a => decide (p a))).map f := by
  induction l with
  | nil => rfl
  | cons a as ih =>
    by_cases ha : p a
    · simp [List.filterMap_cons, List.filter_cons, ha, ← ih]
    · simp [List.filterMap_cons, List.filter_cons, ha, ← ih]

theorem fixtureList_eq_orderedPairs (teams : List Team) (hnd : (teams.map (·.id)).Nodup) :
    fixtureList teams = orderedPairs teams := by
  have hinj : ∀ (i j : Nat) (h a : Team), teams[i]? = some h → teams[j]? = some a →
      (i = j ↔ a.id = h.id) := by
    intro i j h a hi hj
    constructor
    · rintro rfl
      rw [hi] at hj
      cases hj
      rfl
    · intro hid
      have hi' : (teams.map (·.id))[i]? = some h.id := by simp [List.getElem?_map, hi]
      have hj' : (teams.map (·.id))[j]? = some h.id := by simp [List.getElem?_map, hj, hid]
      have hil : i < (teams.map (·.id)).length := (List.getElem?_eq_some.1 hi').1
      have hjl : j < (teams.map (·.id)).length := (List.getElem?_eq_some.1 hj').1
      rcases Nat.lt_trichotomy i j with hlt | heq | hgt
      · exact absurd (hi'.trans hj'.symm)
          (List.nodup_iff_getElem?_ne_getElem?.1 hnd i j hlt hjl)
      · exact heq
      · exact absurd (hj'.trans hi'.symm)
          (List.nodup_iff_getElem?_ne_getElem?.1 hnd j i hgt hil)
  have inner : ∀ i (h : Team), teams[i]? = some h →
      (List.range teams.length).filterMap (fun j => fixtureAt teams i j)
        = (teams.filter (fun a => decide (a.id ≠ h.id))).map (fun a => (h, a)) := by
    intro i h hi
    have hcongr : ∀ j ∈ List.range teams.length, fixtureAt teams i j
        = ((fun o : Option Team => o.bind (fun a => if a.id ≠ h.id then some (h, a) else none))
            ((fun j => teams[j]?) j)) := by
      intro j hj
      have hj' : j < teams.length := List.mem_range.1 hj
      have hja : teams[j]? = some teams[j] := List.getElem?_eq_getElem hj'
      have := hinj i j h teams[j] hi hja
      unfold fixtureAt
      by_cases hij : i = j
      · simp [hij, hja, this.1 hij]
      · have hne : ¬ teams[j].id = h.id := fun hh => hij (this.2 hh)
        simp [hij, hi, hja, hne]
    rw [List.filterMap_congr hcongr]
    refine (List.filterMap_map (fun j => teams[j]?)
      (fun o : Option Team => o.bind (fun a => if a.id ≠ h.id then some (h, a) else none))
      (List.range teams.length)).symm.trans ?_
    rw [range_map_getElem?, List.filterMap_map]
    clear hcongr
    exact filterMap_ite_eq_map_filter (fun a => a.id ≠ h.id) (fun a => (h, a)) teams
  unfold fixtureList orderedPairs
  have houter : ∀ i ∈ List.range teams.length,
      (List.range teams.length).filterMap (fun j => fixtureAt teams i j)
        = ((fun o : Option Team => match o with
            | some h => (teams.filter (fun a => decide (a.id ≠ h.id))).map (fun a => (h, a))
            | none => []) ((fun i => teams[i]?) i)) := by
    intro i hi
    have hi' : i < teams.length := List.mem_range.1 hi
    have hia : teams[i]? = some teams[i] := List.getElem?_eq_getElem hi'
    rw [inner i _ hia]
    simp [hia]
  rw [List.flatMap_congr houter]
  refine (List.flatMap_map (fun i => teams[i]?)
    (fun o : Option Team => match o with
      | some h => (teams.filter (fun a => decide (a.id ≠ h.id))).map (fun a => (h, a))
      | none => []) (List.range teams.length)).symm.trans ?_
  rw [range_map_getElem?, List.flatMap_map]

theorem countP_id_of_not_mem (teams : List Team) (t : Int) (h : t ∉ teams.map (·.id)) :
    teams.countP (fun a => a.id == t) = 0 := by
  rw [List.countP_eq_zero]
  intro a ha hat
  exact h (List.mem_map.2 ⟨a, ha, by simpa using hat⟩)

theorem countP_id_of_nodup (teams : List Team) (t : Int) (hnd : (teams.map (·.id)).Nodup)
    (h : t ∈ teams.map (·.id)) : teams.countP (fun a => a.id == t) = 1 := by
  induction teams with
  | nil => simp at h
  | cons a as ih =>
    rw [List.map_cons, List.nodup_cons] at hnd
    rw [List.countP_cons]
    by_cases hat : a.id = t
    · subst hat
      rw [countP_id_of_not_mem as a.id hnd.1]
      simp
    · rw [List.map_cons, List.mem_cons] at h
      rcases h with h | h
      · exact absurd h.symm hat
      · rw [ih hnd.2 h]
        simp [hat]

theorem length_filter_ne_id (teams : List Team) (t : Int) (hnd : (teams.map (·.id)).Nodup)
    (h : t ∈ teams.map (·.id)) :
    (teams.filter (fun a => decide (a.id ≠ t))).length = teams.length - 1 := by
  have h1 := List.length_eq_countP_add_countP (fun a : Team => a.id == t) teams
  rw [countP_id_of_nodup teams t hnd h, List.countP_eq_length_filter] at h1
  have h2 : (teams.filter (fun a => decide (¬ (a.id == t) = true)))
      = teams.filter (fun a => decide (a.id ≠ t)) := by
    apply List.filter_congr
    intro a _
    simp
  rw [h2] at h1
  omega

theorem sum_map_ite_const {α : Type} (q : α → Bool) (c : Nat) (l : List α) :
    (l.map (fun a => if q a = true then c else 0)).sum = c * l.countP q := by
  induction l with
  | nil => simp
  | cons a as ih =>
    rw [List.map_cons, List.sum_cons, ih, List.countP_cons]
    by_cases h : q a = true
    · simp [h]; ring
    · simp [h]

theorem orderedPairs_length (teams : List Team) (hnd : (teams.map (·.id)).Nodup) :
    (orderedPairs teams).length = teams.length * (teams.length - 1) := by
  unfold orderedPairs
  rw [List.length_flatMap]
  have : ∀ h ∈ teams, (List.length ∘ fun h : Team =>
        (teams.filter (fun a => decide (a.id ≠ h.id))).map (fun a => (h, a))) h
      = (fun _ : Team => teams.length - 1) h := by
    intro h hh
    simp only [Function.comp, List.length_map]
    exact length_filter_ne_id teams h.id hnd (List.mem_map.2 ⟨h, hh, rfl⟩)
  rw [List.map_congr_left this]
  simp

theorem orderedPairs_count_home (teams : List Team) (t : Int) (hnd : (teams.map (·.id)).Nodup)
    (h : t ∈ teams.map (·.id)) :
    (orderedPairs teams).countP (fun p => p.1.id == t) = teams.length - 1 := by
  unfold orderedPairs
  rw [List.countP_flatMap]
  have : ∀ h ∈ teams, (List.countP (fun p : Team × Team => p.1.id == t) ∘ fun h : Team =>
        (teams.filter (fun a => decide (a.id ≠ h.id))).map (fun a => (h, a))) h
      = (fun h : Team => if (h.id == t) = true then teams.length - 1 else 0) h := by
    intro h hh
    simp only [Function.comp, List.countP_map]
    by_cases ht : h.id = t
    · have e : ((fun p : Team × Team => p.1.id == t) ∘ fun a => (h, a)) = fun _ => true := by
        funext a; simp [ht]
      rw [e]
      simp only [ht, beq_self_eq_true, if_true]
      rw [List.countP_eq_length_filter, List.filter_filter]
      simp only [Bool.true_and]
      rw [← ht]
      exact length_filter_ne_id teams h.id hnd (List.mem_map.2 ⟨h, hh, rfl⟩)
    · have e : ((fun p : Team × Team => p.1.id == t) ∘ fun a => (h, a)) = fun _ => false := by
        funext a; simp [ht]
      rw [e]
      simp [ht]
  rw [List.map_congr_left this, sum_map_ite_const, countP_id_of_nodup teams t hnd h]
  simp

theorem orderedPairs_count_away (teams : List Team) (t : Int) (hnd : (teams.map (·.id)).Nodup)
    (hmem : t ∈ teams.map (·.id)) :
    (orderedPairs teams).countP (fun p => p.2.id == t) = teams.length - 1 := by
  unfold orderedPairs
  rw [List.countP_flatMap]
  have : ∀ h ∈ teams, (List.countP (fun p : Team × Team => p.2.id == t) ∘ fun h : Team =>
        (teams.filter (fun a => decide (a.id ≠ h.id))).map (fun a => (h, a))) h
      = (fun h : Team => if (!(h.id == t)) = true then 1 else 0) h := by
    intro h hh
    simp only [Function.comp, List.countP_map]
    rw [List.countP_filter]
    by_cases ht : h.id = t
    · simp only [ht, beq_self_eq_true, Bool.not_true]
      simp only [Bool.false_eq_true, if_false]
      rw [List.countP_eq_zero]
      intro a _
      simp
    · have e : ∀ a ∈ teams, ((((fun p : Team × Team => p.2.id == t) ∘ fun a => (h, a)) a
            && decide (a.id ≠ h.id)) = true) ↔ ((fun a : Team => a.id == t) a = true) := by
        intro a _
        simp only [Function.comp, Bool.and_eq_true, beq_iff_eq, decide_eq_true_eq]
        constructor
        · exact fun hh => hh.1
        · intro hh
          exact ⟨hh, fun h2 => ht (h2 ▸ hh)⟩
      rw [List.countP_congr e, countP_id_of_nodup teams t hnd hmem]
      simp [ht]
  rw [List.map_congr_left this, sum_map_ite_const]
  have h1 := List.length_eq_countP_add_countP (fun a : Team => a.id == t) teams
  rw [countP_id_of_nodup teams t hnd hmem] at h1
  have h2 : teams.countP (fun a => decide (¬ (a.id == t) = true))
      = teams.countP (fun a => !(a.id == t)) := by
    apply List.countP_congr
    intro a _
    simp
  rw [h2] at h1
  omega

theorem orderedPairs_ne (teams : List Team) (p : Team × Team) (hp : p ∈ orderedPairs teams) :
    p.1.id ≠ p.2.id := by
  unfold orderedPairs at hp
  simp only [List.mem_flatMap, List.mem_map, List.mem_filter, decide_eq_true_eq] at hp
  obtain ⟨h, _, a, ⟨_, hne⟩, rfl⟩ := hp
  exact fun e => hne e.symm

theorem orderedPairs_mem (teams : List Team) (h a : Team) :
    (h, a) ∈ orderedPairs teams ↔ h ∈ teams ∧ a ∈ teams ∧ h.id ≠ a.id := by
  unfold orderedPairs
  simp only [List.mem_flatMap, List.mem_map, List.mem_filter, decide_eq_true_eq, Prod.mk.injEq]
  constructor
  · rintro ⟨h', hh', a', ⟨ha', hne⟩, rfl, rfl⟩
    exact ⟨hh', ha', fun e => hne e.symm⟩
  · rintro ⟨hh, ha, hne⟩
    exact ⟨h, hh, a, ⟨ha, fun e => hne e.symm⟩, rfl, rfl⟩

theorem orderedPairs_nodup (teams : List Team) (hnd : (teams.map (·.id)).Nodup) :
    (orderedPairs teams).Nodup := by
  have hts : teams.Nodup := List.Nodup.of_map _ hnd
  unfold orderedPairs
  rw [List.nodup_flatMap]
  constructor
  · intro h _
    exact (hts.filter _).map (fun a b hab => (Prod.mk.injEq _ _ _ _ ▸ hab).2)
  · refine hts.imp ?_
    intro h h' hne
    simp only [Function.onFun]
    rw [List.disjoint_left]
    intro p hp hp'
    simp only [List.mem_map, List.mem_filter] at hp hp'
    obtain ⟨a, _, rfl⟩ := hp
    obtain ⟨b, _, hb⟩ := hp'
    exact hne (Prod.mk.injEq _ _ _ _ ▸ hb).1.symm

/-! ## What `LoadLeaguesAndTeams` yields -/

/-- Every league of the list `LoadLeaguesAndTeams` yields carries `loadedTeams`. -/
theorem LoadLeaguesAndTeams_teams (db : Database) (cache : List League) (lg : League)
    (h : lg ∈ (LoadLeaguesAndTeams db cache).2) : lg.teams = loadedTeams db lg.id := by
  unfold LoadLeaguesAndTeams at h
  unfold loadedTeams
  cases hL : db.Leagues with
  | none => simp [hL] at h
  | some ls =>
    cases hT : db.Teams with
    | none =>
      simp only [hL, hT, selectLeagues, List.mem_map] at h
      obtain ⟨r, _, rfl⟩ := h
      rfl
    | some ts =>
      cases hLT : db.LeagueTable with
      | none =>
        simp only [hL, hT, hLT, selectLeagues, List.mem_map] at h
        obtain ⟨r, _, rfl⟩ := h
        rfl
      | some lt =>
        simp only [hL, hT, hLT, List.mem_map] at h
        obtain ⟨l, _, rfl⟩ := h
        rfl

theorem toInt32_of_inRange (x : Int) (h : InIntRange x) : toInt32 x = x := by
  unfold InIntRange at h
  unfold toInt32
  omega

theorem joinTeams_mem (teams : List TeamRow) (lt : List StandingsRow) (L : Int)
    (p : TeamRow × StandingsRow) :
    p ∈ joinTeams teams lt L
      ↔ p.1 ∈ teams ∧ p.2 ∈ lt ∧ p.1.id = p.2.team_id ∧ p.2.league_id = L := by
  obtain ⟨t, r⟩ := p
  unfold joinTeams
  simp only [List.mem_flatMap, List.mem_map, List.mem_filter, Bool.and_eq_true, beq_iff_eq,
    Prod.mk.injEq]
  constructor
  · rintro ⟨t', ht', r', ⟨hr', h1, h2⟩, rfl, rfl⟩
    exact ⟨ht', hr', h1, h2⟩
  · rintro ⟨ht, hr, h1, h2⟩
    exact ⟨t, ht, r, ⟨hr, h1, h2⟩, rfl, rfl⟩

theorem joinTeams_nodup (teams : List TeamRow) (lt : List StandingsRow) (L : Int)
    (hpk : (teams.map (·.id)).Nodup) (hk : (lt.map StandingsRow.key).Nodup) :
    (joinTeams teams lt L).Nodup := by
  have hts : teams.Nodup := List.Nodup.of_map _ hpk
  have hlt : lt.Nodup := List.Nodup.of_map _ hk
  unfold joinTeams
  rw [List.nodup_flatMap]
  constructor
  · intro t _
    exact (hlt.filter _).map (fun a b hab => (Prod.mk.injEq _ _ _ _ ▸ hab).2)
  · refine hts.imp ?_
    intro t t' hne
    simp only [Function.onFun]
    rw [List.disjoint_left]
    intro p hp hp'
    simp only [List.mem_map, List.mem_filter] at hp hp'
    obtain ⟨a, _, rfl⟩ := hp
    obtain ⟨b, _, hb⟩ := hp'
    exact hne (Prod.mk.injEq _ _ _ _ ▸ hb).1.symm

theorem joinTeams_ids_nodup (teams : List TeamRow) (lt : List StandingsRow) (L : Int)
    (hpk : (teams.map (·.id)).Nodup) (hk : (lt.map StandingsRow.key).Nodup) :
    ((joinTeams teams lt L).map (fun p => p.1.id)).Nodup := by
  refine List.Nodup.map_on ?_ (joinTeams_nodup teams lt L hpk hk)
  intro p hp q hq hpq
  rw [joinTeams_mem] at hp hq
  obtain ⟨hp1, hp2, hp3, hp4⟩ := hp
  obtain ⟨hq1, hq2, hq3, hq4⟩ := hq
  have e1 : p.1 = q.1 := List.inj_on_of_nodup_map hpk hp1 hq1 hpq
  have e2 : p.2 = q.2 := by
    apply List.inj_on_of_nodup_map hk hp2 hq2
    simp only [StandingsRow.key, Prod.mk.injEq]
    exact ⟨by rw [← hp3, ← hq3, hpq], by rw [hp4, hq4]⟩
  exact Prod.ext e1 e2

theorem selectTeams_ids (teams : List TeamRow) (lt : List StandingsRow) (L : Int)
    (hrange : TeamIdsInRange teams lt L) :
    (selectTeams teams lt L).map (·.id)
      = (stdSort (fun a b : TeamRow => decide (a.id < b.id))
          ((joinTeams teams lt L).map Prod.fst)).map (·.id) := by
  unfold selectTeams
  rw [List.map_map]
  apply List.map_congr_left
  intro t ht
  have ht' := (stdSort_perm _ _).subset ht
  rw [List.mem_map] at ht'
  obtain ⟨p, hp, rfl⟩ := ht'
  rw [joinTeams_mem] at hp
  exact toInt32_of_inRange _ (hrange p.1 hp.1 p.2 hp.2.1 hp.2.2.1 hp.2.2.2)

theorem loadedTeams_ids_nodup (s : Store) (L : Int)
    (hk : (s.LeagueTable.map StandingsRow.key).Nodup)
    (hrange : TeamIdsInRange s.Teams s.LeagueTable L) :
    ((loadedTeams s.toDatabase L).map (·.id)).Nodup := by
  show ((selectTeams s.Teams s.LeagueTable L).map (·.id)).Nodup
  rw [selectTeams_ids _ _ _ hrange]
  have hp := (stdSort_perm (fun a b : TeamRow => decide (a.id < b.id))
    ((joinTeams s.Teams s.LeagueTable L).map Prod.fst)).map (·.id)
  rw [hp.nodup_iff, List.map_map]
  exact joinTeams_ids_nodup s.Teams s.LeagueTable L s.teams_pk hk

theorem loadedTeams_mem (s : Store) (L : Int) (t : Team)
    (hrange : TeamIdsInRange s.Teams s.LeagueTable L)
    (ht : t ∈ loadedTeams s.toDatabase L) :
    ∃ r ∈ s.toDatabase.rows, r.team_id = t.id ∧ r.league_id = L := by
  have ht1 : t ∈ selectTeams s.Teams s.LeagueTable L := ht
  unfold selectTeams at ht1
  rw [List.mem_map] at ht1
  obtain ⟨t0, ht0, rfl⟩ := ht1
  have ht' := (stdSort_perm _ _).subset ht0
  rw [List.mem_map] at ht'
  obtain ⟨p, hp, rfl⟩ := ht'
  rw [joinTeams_mem] at hp
  refine ⟨p.2, hp.2.1, ?_, hp.2.2.2⟩
  show p.2.team_id = toInt32 p.1.id
  rw [toInt32_of_inRange _ (hrange p.1 hp.1 p.2 hp.2.1 hp.2.2.1 hp.2.2.2)]
  exact hp.2.2.1.symm

theorem loadedTeams_complete (s : Store) (L : Int)
    (hrange : TeamIdsInRange s.Teams s.LeagueTable L) (t : TeamRow) (r : StandingsRow)
    (ht : t ∈ s.Teams) (hr : r ∈ s.LeagueTable) (hid : t.id = r.team_id)
    (hl : r.league_id = L) : r.team_id ∈ (loadedTeams s.toDatabase L).map (·.id) := by
  show r.team_id ∈ (selectTeams s.Teams s.LeagueTable L).map (·.id)
  rw [selectTeams_ids _ _ _ hrange, List.mem_map]
  refine ⟨t, (stdSort_perm _ _).symm.subset ?_, hid⟩
  rw [List.mem_map]
  exact ⟨(t, r), (joinTeams_mem _ _ _ _).2 ⟨ht, hr, hid, hl⟩, rfl⟩

theorem rowLeague_goal_diff (lib : RandLib) (lg : League) (g : Nat) (r : StandingsRow)
    (h : r.league_id = lg.id) :
    (rowLeague lib lg g r).goal_diff
      = (rowLeague lib lg g r).goals_scored - (rowLeague lib lg g r).goals_conceded := by
  unfold rowLeague
  apply rowPlay_goal_diff
  rw [rowReset_of_eq _ _ h]
  rfl

theorem rowLeague_key_determined (lib : RandLib) (lg : League) (g : Nat) (r1 r2 : StandingsRow)
    (ht : r1.team_id = r2.team_id) (hl : r1.league_id = r2.league_id)
    (h : r1.league_id = lg.id) : rowLeague lib lg g r1 = rowLeague lib lg g r2 := by
  unfold rowLeague
  rw [rowReset_of_eq _ _ h, rowReset_of_eq _ _ (hl ▸ h), ht, hl]

theorem rowLeagues_key_determined (lib : RandLib) (ls : List League) (g : Nat)
    (r1 r2 : StandingsRow) (ht : r1.team_id = r2.team_id) (hl : r1.league_id = r2.league_id)
    (h : r1 = r2 ∨ r1.league_id ∈ ls.map (·.id)) :
    rowLeagues lib ls g r1 = rowLeagues lib ls g r2 := by
  induction ls generalizing g r1 r2 with
  | nil =>
    rcases h with h | h
    · rw [h]
    · simp at h
  | cons lg ls ih =>
    simp only [rowLeagues]
    apply ih
    · rw [rowLeague_team_id, rowLeague_team_id, ht]
    · rw [rowLeague_league_id, rowLeague_league_id, hl]
    · by_cases hid : r1.league_id = lg.id
      · exact Or.inl (rowLeague_key_determined lib lg g r1 r2 ht hl hid)
      · rw [rowLeague_league_id, rowLeague_of_ne _ _ _ _ hid,
          rowLeague_of_ne _ _ _ _ (hl ▸ hid)]
        rcases h with h | h
        · exact Or.inl h
        · rw [List.map_cons, List.mem_cons] at h
          rcases h with h | h
          · exact absurd h hid
          · exact Or.inr h

theorem rowLeague_matches_played (lib : RandLib) (lg : League) (g : Nat) (r : StandingsRow)
    (h : r.league_id = lg.id) (hnd : (lg.teams.map (·.id)).Nodup)
    (ht : r.team_id ∈ lg.teams.map (·.id)) :
    (rowLeague lib lg g r).matches_played = 2 * ((lg.teams.length : Int) - 1) := by
  unfold rowLeague
  rw [rowPlay_matches_played _ _ _ _ _ (by rw [rowReset_league_id]; exact h),
    rowReset_team_id, fixtureList_eq_orderedPairs _ hnd,
    orderedPairs_count_home _ _ hnd ht, orderedPairs_count_away _ _ hnd ht,
    rowReset_of_eq _ _ h]
  have hpos : 0 < lg.teams.length := by
    rw [List.mem_map] at ht
    obtain ⟨t, ht, _⟩ := ht
    exact List.length_pos_of_mem ht
  simp only
  omega

/-! ## The claims -/

/-- C1 fails for a store whose team A has the id 2^32 + 1: `LoadLeaguesAndTeams` reads
the id through `sqlite3_column_int` as 1, the league is loaded with the team ids 2 and 1
(N = 2), the store holds one row per membership, and after the simulation the standings
row of team A has played 0 matches, not 2. -/
theorem matches_played_counterexample :
    (LoadLeaguesAndTeams wideIdStore.toDatabase []).2
      = [{ id := 1, name := "L", teams := [{ id := 2, name := "B" }, { id := 1, name := "A" }] }] ∧
    (wideIdStore.LeagueTable.map StandingsRow.key).Nodup ∧
    (SimulateSeasonAllLeagues counterLib 1 0 wideIdStore.toDatabase
        (LoadLeaguesAndTeams wideIdStore.toDatabase []).2).db.rows
      = [{ team_id := 2, league_id := 1, points := 0, matches_played := 2, goals_scored := 1,
           goals_conceded := 5, goal_diff := -4 },
         { team_id := 4294967297, league_id := 1, points := 0, matches_played := 0,
           goals_scored := 0, goals_conceded := 0, goal_diff := 0 }] := by
  refine ⟨?_, ?_, ?_⟩ <;> decide

/-- C1, amended. After `SimulateSeasonAllLeagues`, for a league `lg` of the league list with
`N` teams in its team list, when the list carries for this league the team list
`LoadLeaguesAndTeams` yields for the store (`hload`; every league of the list that
`LoadLeaguesAndTeams` yields does, by `LoadLeaguesAndTeams_teams`), the store holds one
`LeagueTable` row per (team, league) membership (`hone`) and the ids of the league's teams
lie in the range of a C `int` (`hrange`), every team of the league has a standings row
and each standings row of a team of the league (a team of the cached list, and likewise
a `Teams` row with a `LeagueTable` row in the league) has
`matches_played = 2 * (N - 1)`, whatever the generator draws. -/
theorem matches_played_after_simulation (lib : RandLib) (now g : Nat) (s : Store)
    (leagues : List League) (lg : League) (hlg : lg ∈ leagues)
    (hload : ∀ l ∈ leagues, l.id = lg.id → l.teams = loadedTeams s.toDatabase lg.id)
    (hone : (s.LeagueTable.map StandingsRow.key).Nodup)
    (hrange : TeamIdsInRange s.Teams s.LeagueTable lg.id) :
    (∀ t ∈ lg.teams,
      (∃ r ∈ (SimulateSeasonAllLeagues lib now g s.toDatabase leagues).db.rows,
        r.team_id = t.id ∧ r.league_id = lg.id) ∧
      ∀ r ∈ (SimulateSeasonAllLeagues lib now g s.toDatabase leagues).db.rows,
        r.team_id = t.id → r.league_id = lg.id →
          r.matches_played = 2 * ((lg.teams.length : Int) - 1)) ∧
    ∀ r ∈ (SimulateSeasonAllLeagues lib now g s.toDatabase leagues).db.rows,
      r.league_id = lg.id → (∃ t ∈ s.Teams, t.id = r.team_id) →
        r.matches_played = 2 * ((lg.teams.length : Int) - 1) := by
  have hteams : lg.teams = loadedTeams s.toDatabase lg.id := hload lg hlg rfl
  have main : ∀ t ∈ lg.teams,
      (∃ r ∈ (SimulateSeasonAllLeagues lib now g s.toDatabase leagues).db.rows,
        r.team_id = t.id ∧ r.league_id = lg.id) ∧
      ∀ r ∈ (SimulateSeasonAllLeagues lib now g s.toDatabase leagues).db.rows,
        r.team_id = t.id → r.league_id = lg.id →
          r.matches_played = 2 * ((lg.teams.length : Int) - 1) := ?_
  · refine ⟨main, ?_⟩
    intro r' hr' hrl ⟨t, ht, hid⟩
    have hr0 := hr'
    rw [simulate_rows, List.mem_map] at hr0
    obtain ⟨r, hr, hrr⟩ := hr0
    have hkt : r.team_id = r'.team_id := by rw [← hrr, rowLeagues_team_id]
    have hkl : r.league_id = r'.league_id := by rw [← hrr, rowLeagues_league_id]
    have hmem := loadedTeams_complete s lg.id hrange t r ht hr (hid.trans hkt.symm)
      (hkl.trans hrl)
    rw [← hteams, List.mem_map] at hmem
    obtain ⟨t', ht', hid'⟩ := hmem
    exact (main t' ht').2 r' hr' (by rw [hid', hkt]) hrl
  intro t ht
  rw [simulate_rows]
  constructor
  · obtain ⟨r, hr, hrt, hrl⟩ := loadedTeams_mem s lg.id t hrange (hteams ▸ ht)
    exact ⟨_, List.mem_map_of_mem _ hr, by rw [rowLeagues_team_id, hrt],
      by rw [rowLeagues_league_id, hrl]⟩
  · intro r' hr' hrt hrl
    rw [List.mem_map] at hr'
    obtain ⟨r, _, rfl⟩ := hr'
    rw [rowLeagues_team_id] at hrt
    rw [rowLeagues_league_id] at hrl
    refine rowLeagues_establish lib lg.id
      (fun x => x.team_id = t.id → x.matches_played = 2 * ((lg.teams.length : Int) - 1))
      leagues _ r hrl ?_ (Or.inr ⟨lg, hlg, rfl⟩) (by rw [rowLeagues_team_id]; exact hrt)
    intro l hl hlid g' x hx hxt
    rw [rowLeague_team_id] at hxt
    have hlt : l.teams = lg.teams := (hload l hl hlid).trans hteams.symm
    have hnd : (l.teams.map (·.id)).Nodup := by
      rw [hload l hl hlid]
      exact loadedTeams_ids_nodup s lg.id hone hrange
    rw [rowLeague_matches_played lib l g' x (hx.trans hlid.symm) hnd
      (by rw [hxt, hlt]; exact List.mem_map_of_mem _ ht), hlt]

/-- Witness of the amended C1: the sample store, simulated with the league list it
loads. -/
theorem matches_played_after_simulation_witness :
    leagueAB ∈ (LoadLeaguesAndTeams sampleStore.toDatabase []).2 ∧
    (∀ l ∈ (LoadLeaguesAndTeams sampleStore.toDatabase []).2, l.id = leagueAB.id →
      l.teams = loadedTeams sampleStore.toDatabase leagueAB.id) ∧
    (sampleStore.LeagueTable.map StandingsRow.key).Nodup ∧
    TeamIdsInRange sampleStore.Teams sampleStore.LeagueTable leagueAB.id ∧
    (∀ t ∈ leagueAB.teams,
      (∃ r ∈ (SimulateSeasonAllLeagues counterLib 0 0 sampleStore.toDatabase
          (LoadLeaguesAndTeams sampleStore.toDatabase []).2).db.rows,
        r.team_id = t.id ∧ r.league_id = leagueAB.id) ∧
      ∀ r ∈ (SimulateSeasonAllLeagues counterLib 0 0 sampleStore.toDatabase
          (LoadLeaguesAndTeams sampleStore.toDatabase []).2).db.rows,
        r.team_id = t.id → r.league_id = leagueAB.id →
          r.matches_played = 2 * ((leagueAB.teams.length : Int) - 1)) ∧
    ∀ r ∈ (SimulateSeasonAllLeagues counterLib 0 0 sampleStore.toDatabase
        (LoadLeaguesAndTeams sampleStore.toDatabase []).2).db.rows,
      r.league_id = leagueAB.id → (∃ t ∈ sampleStore.Teams, t.id = r.team_id) →
        r.matches_played = 2 * ((leagueAB.teams.length : Int) - 1) :=
  ⟨by decide, by decide, by decide, by unfold TeamIdsInRange InIntRange; decide,
    matches_played_after_simulation counterLib 0 0 sampleStore
      (LoadLeaguesAndTeams sampleStore.toDatabase []).2 leagueAB
      (by decide) (by decide) (by decide) (by unfold TeamIdsInRange InIntRange; decide)⟩

theorem rowLeagues_goal_diff (lib : RandLib) (ls : List League) (g : Nat) (r : StandingsRow)
    (hl : r.league_id ∈ ls.map (·.id)) :
    (rowLeagues lib ls g r).goal_diff
      = (rowLeagues lib ls g r).goals_scored - (rowLeagues lib ls g r).goals_conceded := by
  rw [List.mem_map] at hl
  obtain ⟨lg, hlg, hlid⟩ := hl
  refine rowLeagues_establish lib r.league_id
    (fun x => x.goal_diff = x.goals_scored - x.goals_conceded) ls g r rfl ?_
    (Or.inr ⟨lg, hlg, hlid⟩)
  intro l _ hlid' g' x hx
  exact rowLeague_goal_diff lib l g' x (hx.trans hlid'.symm)

/-- C2. After `SimulateSeasonAllLeagues`, every standings row whose league is in the
simulated league list has `goal_diff = goals_scored - goals_conceded`, for every
database, league list, clock value and generator, whatever the row held before. -/
theorem goal_diff_after_simulation (lib : RandLib) (now g : Nat) (db : Database)
    (leagues : List League) (r : StandingsRow)
    (hr : r ∈ (SimulateSeasonAllLeagues lib now g db leagues).db.rows)
    (hl : r.league_id ∈ leagues.map (·.id)) :
    r.goal_diff = r.goals_scored - r.goals_conceded := by
  rw [simulate_rows, List.mem_map] at hr
  obtain ⟨r0, _, rfl⟩ := hr
  rw [rowLeagues_league_id] at hl
  exact rowLeagues_goal_diff lib leagues _ r0 hl

/-- Witness of C2: the row of team A in the sample store after a simulation. -/
theorem goal_diff_after_simulation_witness :
    rowAfterA ∈ (SimulateSeasonAllLeagues counterLib 0 0 sampleStore.toDatabase
        [leagueAB]).db.rows ∧
    rowAfterA.league_id ∈ [leagueAB].map (·.id) ∧
    rowAfterA.goal_diff = rowAfterA.goals_scored - rowAfterA.goals_conceded :=
  ⟨by decide, by decide,
    goal_diff_after_simulation counterLib 0 0 sampleStore.toDatabase [leagueAB] rowAfterA
      (by decide) (by decide)⟩

theorem map_filter_eq_of_keys (F : StandingsRow → StandingsRow) (P : StandingsRow → Bool)
    (hF : ∀ r1 r2 : StandingsRow, r1.key = r2.key → (P (F r1) = true ∨ P (F r2) = true) →
      F r1 = F r2)
    (l1 l2 : List StandingsRow) (h : l1.map StandingsRow.key = l2.map StandingsRow.key) :
    (l1.map F).filter P = (l2.map F).filter P := by
  induction l1 generalizing l2 with
  | nil =>
    cases l2 with
    | nil => rfl
    | cons b bs => simp at h
  | cons a as ih =>
    cases l2 with
    | nil => simp at h
    | cons b bs =>
      simp only [List.map_cons, List.cons.injEq] at h
      have hab := hF a b h.1
      simp only [List.map_cons, List.filter_cons]
      by_cases hPa : P (F a) = true
      · have e := hab (Or.inl hPa)
        rw [← e]
        simp only [hPa, if_true]
        rw [ih bs h.2]
      · by_cases hPb : P (F b) = true
        · have e := hab (Or.inr hPb)
          rw [e] at hPa
          exact absurd hPb hPa
        · rw [if_neg hPa, if_neg hPb, ih bs h.2]

/-- C3. `SimulateSeasonAllLeagues` does not accumulate: for two databases whose
`LeagueTable` rows record the same memberships (whatever points, matches, goals
and goal difference they hold), the same league list, the same generator and the same
clock value, the standings rows of the simulated leagues are the same afterwards. -/
theorem simulation_does_not_accumulate (lib : RandLib) (now g1 g2 : Nat) (db1 db2 : Database)
    (leagues : List League)
    (hkeys : db1.rows.map StandingsRow.key = db2.rows.map StandingsRow.key) :
    (SimulateSeasonAllLeagues lib now g1 db1 leagues).db.rows.filter
        (fun r => decide (r.league_id ∈ leagues.map (·.id)))
      = (SimulateSeasonAllLeagues lib now g2 db2 leagues).db.rows.filter
        (fun r => decide (r.league_id ∈ leagues.map (·.id))) := by
  rw [simulate_rows, simulate_rows]
  apply map_filter_eq_of_keys _ _ _ _ _ hkeys
  intro r1 r2 hk hP
  simp only [StandingsRow.key, Prod.mk.injEq] at hk
  apply rowLeagues_key_determined lib leagues _ r1 r2 hk.1 hk.2
  right
  rcases hP with hP | hP
  · simpa [rowLeagues_league_id] using hP
  · rw [hk.2]
    simpa [rowLeagues_league_id] using hP

/-- Witness of C3: the sample store and the store with the same memberships at zero. -/
theorem simulation_does_not_accumulate_witness :
    sampleStore.toDatabase.rows.map StandingsRow.key
        = freshStore.toDatabase.rows.map StandingsRow.key ∧
    sampleStore.toDatabase.rows ≠ freshStore.toDatabase.rows ∧
    (SimulateSeasonAllLeagues counterLib 5 0 sampleStore.toDatabase [leagueAB]).db.rows.filter
        (fun r => decide (r.league_id ∈ [leagueAB].map (·.id)))
      = (SimulateSeasonAllLeagues counterLib 5 0 freshStore.toDatabase [leagueAB]).db.rows.filter
        (fun r => decide (r.league_id ∈ [leagueAB].map (·.id))) :=
  ⟨by decide, by decide,
    simulation_does_not_accumulate counterLib 5 0 0 sampleStore.toDatabase
      freshStore.toDatabase [leagueAB] (by decide)⟩

/-- C5. Every fixture draws home goals `hg` and away goals `ag` in `0..3`, and for all
goals the three statements of the fixture add to the points of the home and away rows
`(3, 0)` when `hg > ag`, `(0, 3)` when `hg < ag` and `(1, 1)` when `hg = ag`; the points
awarded by a fixture sum to 2 (draw) or 3 (decisive result), never another value. -/
theorem fixture_points (hg ag : Int) :
    (∀ (lib : RandLib) (g : Nat),
      (0 ≤ (drawGoals lib g).1 ∧ (drawGoals lib g).1 ≤ 3) ∧
      (0 ≤ (drawGoals lib g).2.1 ∧ (drawGoals lib g).2.1 ≤ 3)) ∧
    (∀ (leagueId home away : Int) (db : Database),
      (recordResult leagueId home away hg ag db).rows.map (·.points)
        = db.rows.map (fun r => r.points
            + (if r.team_id = home ∧ r.league_id = leagueId then homePoints hg ag else 0)
            + (if r.team_id = away ∧ r.league_id = leagueId then awayPoints hg ag else 0))) ∧
    (homePoints hg ag, awayPoints hg ag)
      = (if hg > ag then (3, 0) else if hg < ag then (0, 3) else (1, 1)) ∧
    homePoints hg ag + awayPoints hg ag = (if hg = ag then 2 else 3) := by
  refine ⟨?_, ?_, ?_, ?_⟩
  · intro lib g
    simp only [drawGoals]
    omega
  · intro L home away db
    rw [recordResult_eq, mapRows_rows, List.map_map]
    apply List.map_congr_left
    intro r _
    exact rowRecord_points L home away hg ag r
  · unfold homePoints awayPoints
    split_ifs <;> first | rfl | omega
  · unfold homePoints awayPoints
    split_ifs <;> omega

theorem joinTeams_eq_joinOfStore (s : Store) (L : Int) :
    joinTeams s.Teams s.LeagueTable L = joinOfStore s L := by
  unfold joinTeams joinOfStore
  generalize s.Teams = ts
  induction ts with
  | nil => rfl
  | cons t ts ih =>
    rw [List.flatMap_cons, ih]
    show _ = List.filter _ (List.map (Prod.mk t) s.LeagueTable ++ List.product ts s.LeagueTable)
    rw [List.filter_append, List.filter_map]
    rfl

theorem readStandings_ok (l : List (TeamRow × StandingsRow))
    (h : ∀ p ∈ l, p.1.name ≠ none) :
    readStandings l = .ok (l.map (fun p =>
      ({ name := p.1.name.getD "", p := toInt32 p.2.points, mp := toInt32 p.2.matches_played,
         gs := toInt32 p.2.goals_scored, gc := toInt32 p.2.goals_conceded,
         gd := toInt32 p.2.goal_diff } : Row))) := by
  induction l with
  | nil => rfl
  | cons p ps ih =>
    obtain ⟨t, r⟩ := p
    have hn := h (t, r) (List.mem_cons_self _ _)
    cases hname : t.name with
    | none => exact absurd hname hn
    | some n =>
      simp only [readStandings, hname, ih (fun q hq => h q (List.mem_cons_of_mem _ hq)),
        List.map_cons, Option.getD_some]

/-- C7 fails for a store whose team A holds 2^32 + 1 points and team B 5 points: the
points are read through `sqlite3_column_int`, so A is displayed with 1 point, below B,
and the displayed row of A is not a row of the join. -/
theorem standings_counterexample :
    RenderLeagueTable widePointsStore.toDatabase leagueAB
      = .ok [{ name := "B", p := 5, mp := 2, gs := 0, gc := 0, gd := 0 },
             { name := "A", p := 1, mp := 2, gs := 0, gc := 0, gd := 0 }] ∧
    (joinOfStore widePointsStore leagueAB.id).map (fun p => (p.1.name, p.2.points))
      = [(some "A", 4294967297), (some "B", 5)] :=
  ⟨rfl, by decide⟩

/-- C7, amended. For every store and league in which the `Teams` rows joined for the
league have a name (`hnames`), `RenderLeagueTable` reports no error and the rows it
displays are a permutation of the rows of the Teams-LeagueTable join for the league id,
each statistic read as a C `int` (its low 32 bits), with displayed points non-increasing
from first to last; when the statistics of the league lie in the range of a C `int` the
rows displayed are a permutation of the join rows as stored; for a league without
`LeagueTable` rows the sequence is empty. -/
theorem standings_sorted_by_points (s : Store) (lg : League)
    (hnames : ∀ p ∈ joinOfStore s lg.id, p.1.name ≠ none) :
    ∃ rows, RenderLeagueTable s.toDatabase lg = .ok rows ∧
      rows.Perm ((joinOfStore s lg.id).map (fun p =>
        ({ name := p.1.name.getD "", p := toInt32 p.2.points,
           mp := toInt32 p.2.matches_played, gs := toInt32 p.2.goals_scored,
           gc := toInt32 p.2.goals_conceded, gd := toInt32 p.2.goal_diff } : Row))) ∧
      rows.Pairwise (fun a b => a.p ≥ b.p) ∧
      ((∀ p ∈ joinOfStore s lg.id, InIntRange p.2.points ∧ InIntRange p.2.matches_played ∧
          InIntRange p.2.goals_scored ∧ InIntRange p.2.goals_conceded ∧
          InIntRange p.2.goal_diff) →
        rows.Perm ((joinOfStore s lg.id).map (fun p =>
          ({ name := p.1.name.getD "", p := p.2.points, mp := p.2.matches_played,
             gs := p.2.goals_scored, gc := p.2.goals_conceded, gd := p.2.goal_diff } : Row)))) ∧
      ((∀ r ∈ s.LeagueTable, r.league_id ≠ lg.id) → rows = []) := by
  have hread := readStandings_ok (joinOfStore s lg.id) hnames
  have hrender : RenderLeagueTable s.toDatabase lg
      = .ok (stdSort (fun a b => decide (a.p > b.p)) ((joinOfStore s lg.id).map (fun p =>
        ({ name := p.1.name.getD "", p := toInt32 p.2.points,
           mp := toInt32 p.2.matches_played, gs := toInt32 p.2.goals_scored,
           gc := toInt32 p.2.goals_conceded, gd := toInt32 p.2.goal_diff } : Row)))) := by
    simp only [RenderLeagueTable, Store.toDatabase, joinTeams_eq_joinOfStore, hread]
  refine ⟨_, hrender, stdSort_perm _ _, ?_, ?_, ?_⟩
  · have h := stdSort_pairwise (fun a b : Row => decide (a.p > b.p))
      (by intro a b hab; simp only [decide_eq_true_eq, decide_eq_false_iff_not] at *; omega)
      (by intro a b c h1 h2; simp only [decide_eq_false_iff_not] at *; omega)
      ((joinOfStore s lg.id).map (fun p =>
        ({ name := p.1.name.getD "", p := toInt32 p.2.points,
           mp := toInt32 p.2.matches_played, gs := toInt32 p.2.goals_scored,
           gc := toInt32 p.2.goals_conceded, gd := toInt32 p.2.goal_diff } : Row)))
    refine h.imp ?_
    intro a b hab
    simp only [decide_eq_false_iff_not] at hab
    omega
  · intro hr
    refine (stdSort_perm _ _).trans ?_
    rw [List.map_congr_left]
    intro p hp
    obtain ⟨h1, h2, h3, h4, h5⟩ := hr p hp
    rw [toInt32_of_inRange _ h1, toInt32_of_inRange _ h2, toInt32_of_inRange _ h3,
      toInt32_of_inRange _ h4, toInt32_of_inRange _ h5]
  · intro hnone
    have hj : joinOfStore s lg.id = [] := by
      unfold joinOfStore
      rw [List.filter_eq_nil_iff]
      intro p hp
      obtain ⟨t, r⟩ := p
      have hr : r ∈ s.LeagueTable := (List.pair_mem_product.1 hp).2
      simp only [Bool.and_eq_true, beq_iff_eq, not_and]
      exact fun _ => hnone r hr
    rw [hj]
    rfl

/-- Witness of the amended C7: the two rows of the sample league, and a league without
rows in the sample store. -/
theorem standings_sorted_by_points_witness :
    (∀ p ∈ joinOfStore sampleStore leagueAB.id, p.1.name ≠ none) ∧
    (∃ rows, RenderLeagueTable sampleStore.toDatabase leagueAB = .ok rows ∧
      rows.Perm [{ name := "A", p := 9, mp := 9, gs := 9, gc := 9, gd := 9 },
                 { name := "B", p := 7, mp := 7, gs := 7, gc := 7, gd := 7 }] ∧
      rows.Pairwise (fun a b => a.p ≥ b.p)) ∧
    (∀ r ∈ sampleStore.LeagueTable, r.league_id ≠ leagueEmpty.id) ∧
    ∃ rows, RenderLeagueTable sampleStore.toDatabase leagueEmpty = .ok rows ∧ rows = [] :=
  ⟨by decide,
    (standings_sorted_by_points sampleStore leagueAB (by decide)).elim
      (fun rows h => ⟨rows, h.1, h.2.2.2.1 (by unfold InIntRange; decide), h.2.2.1⟩),
    by decide,
    (standings_sorted_by_points sampleStore leagueEmpty (by decide)).elim
      (fun rows h => ⟨rows, h.1, h.2.2.2.2 (by decide)⟩)⟩

/-- A NULL team name: `LoadLeaguesAndTeams` guards the text column and loads the empty
name, `RenderLeagueTable` assigns the null pointer to the row's name. -/
theorem render_null_name :
    RenderLeagueTable namelessStore.toDatabase leagueAB = .error .nullName ∧
    (LoadLeaguesAndTeams namelessStore.toDatabase []).2
      = [{ id := 1, name := "L", teams := [{ id := 1, name := "" }] }] :=
  ⟨rfl, by decide⟩

/-- C8 at its failing inputs. A load that completes the copy and then fails in
`LoadLeaguesAndTeams` returns false and leaves the copied database as the active working
store: `memory_db` is not null, and when only the team statement fails to prepare the
cached league list is not empty either. -/
theorem load_failure_keeps_store :
    LoadFileDBToMemory emptyFileEnv "missing.db" sampleApp
      = (false, { memory_db := some Database.empty, leagues := [] }) ∧
    LoadFileDBToMemory leaguesOnlyEnv "leagues.db" sampleApp
      = (false, { memory_db := some leaguesOnlyDb,
                  leagues := [{ id := 1, name := "L", teams := [] }] }) := by
  constructor <;> decide

/-- The failure exits before the copy completes: the file cannot be opened, the backup
cannot be initialised, or the copy step does not finish.  There `memory_db` is null and,
if a working store was active on entry, the cached league list is empty. -/
theorem load_failure_before_copy (env : SqliteEnv) (filename : String) (st : AppState)
    (hmem : env.openMemoryOk = true)
    (hfail : env.openFile filename = none ∨ env.backupInitOk = false
      ∨ env.backupStepDone = false) :
    (LoadFileDBToMemory env filename st).1 = false ∧
    (LoadFileDBToMemory env filename st).2.memory_db = none ∧
    (st.memory_db.isSome = true → (LoadFileDBToMemory env filename st).2.leagues = []) := by
  unfold LoadFileDBToMemory
  simp only [hmem, Bool.not_true, Bool.false_eq_true, if_false]
  cases hf : env.openFile filename with
  | none =>
    refine ⟨rfl, rfl, ?_⟩
    intro h
    simp [h, CloseMemoryDB]
  | some file =>
    rcases hfail with h | h | h
    · rw [hf] at h; cases h
    · simp only [h, Bool.not_false, if_true]
      refine ⟨trivial, trivial, ?_⟩
      intro h'
      simp [h', CloseMemoryDB]
    · cases hb : env.backupInitOk <;>
        simp only [h, Bool.not_false, Bool.not_true, Bool.false_eq_true, if_true, if_false] <;>
        (refine ⟨trivial, trivial, ?_⟩; intro h'; simp [h', CloseMemoryDB])

/-- The failure exit after a completed copy: when `LoadLeaguesAndTeams` fails on the
copied database, the load returns false and the copied database stays the working
store. -/
theorem load_failure_after_copy (env : SqliteEnv) (filename : String) (st : AppState)
    (file : Database) (hmem : env.openMemoryOk = true) (hfile : env.openFile filename = some file)
    (hinit : env.backupInitOk = true) (hstep : env.backupStepDone = true)
    (hload : (LoadLeaguesAndTeams file []).1 = false) :
    (LoadFileDBToMemory env filename st).1 = false ∧
    (LoadFileDBToMemory env filename st).2.memory_db = some file := by
  have hany : ∀ cache, (LoadLeaguesAndTeams file cache).1 = false := fun _ => hload
  unfold LoadFileDBToMemory
  simp only [hmem, hfile, hinit, hstep, Bool.not_true, Bool.false_eq_true, if_false]
  exact ⟨hany _, trivial⟩

/-- C9, as the code has it. `SimulateSeasonAllLeagues` reseeds the generator from the
clock at every call: what it leaves is what the league loop leaves when started from
the state `srand` sets for the clock value, and does not depend on the generator state
the call is entered with. -/
theorem simulation_reseeds_every_call (lib : RandLib) (now g g' : Nat) (db : Database)
    (leagues : List League) :
    SimulateSeasonAllLeagues lib now g db leagues
      = SimulateSeasonAllLeagues lib now g' db leagues ∧
    (SimulateSeasonAllLeagues lib now g db leagues).db
      = (simulateLeagues lib leagues { rng := lib.seed (now % 2 ^ 32), db := db }).db ∧
    (SimulateSeasonAllLeagues lib now g db leagues).rng
      = (simulateLeagues lib leagues { rng := lib.seed (now % 2 ^ 32), db := db }).rng :=
  ⟨rfl, rfl, rfl⟩

/-- C9 fails: entered with the generator in state 1 at clock value 0, the simulation
does not leave what the league loop leaves when it continues from state 1, and it
leaves the same rows as a run entered in state 7 at the same clock value. -/
theorem simulation_reseeds_counterexample :
    (SimulateSeasonAllLeagues counterLib 0 1 sampleStore.toDatabase [leagueAB]).db
      ≠ (simulateLeagues counterLib [leagueAB]
          { rng := 1, db := sampleStore.toDatabase }).db ∧
    (SimulateSeasonAllLeagues counterLib 0 1 sampleStore.toDatabase [leagueAB]).db
      = (SimulateSeasonAllLeagues counterLib 0 7 sampleStore.toDatabase [leagueAB]).db := by
  constructor <;> decide

/-- C4 fails for a team list that holds a team twice: its two fixtures both have that
team as home and as away. -/
theorem fixtures_counterexample :
    fixturesPlayed [teamA, teamA] = [(teamA, teamA), (teamA, teamA)] ∧
    ∃ p ∈ fixturesPlayed [teamA, teamA], p.1 = p.2 := by
  constructor
  · decide
  · exact ⟨(teamA, teamA), by decide, rfl⟩

/-- C4, amended. The league loop plays the fixtures `fixturesPlayed` in order; for a team
list of `N` teams with pairwise distinct ids they are exactly the ordered pairs
`(home, away)` of teams with different ids, home in list order and for each home the
away teams in list order, each pair once, `N * (N - 1)` in all, and no fixture has the
same team as home and away. -/
theorem fixtures_of_distinct_teams (teams : List Team) (hnd : (teams.map (·.id)).Nodup) :
    (∀ (lib : RandLib) (leagueId : Int) (w : World),
      forEachFixture teams (playFixture lib leagueId) w
        = (fixturesPlayed teams).foldl (fun w p => playFixture lib leagueId p.1 p.2 w) w) ∧
    fixturesPlayed teams = orderedPairs teams ∧
    (∀ h a, (h, a) ∈ fixturesPlayed teams ↔ h ∈ teams ∧ a ∈ teams ∧ h.id ≠ a.id) ∧
    (fixturesPlayed teams).Nodup ∧
    (fixturesPlayed teams).length = teams.length * (teams.length - 1) ∧
    (∀ p ∈ fixturesPlayed teams, p.1.id ≠ p.2.id) := by
  have e : fixturesPlayed teams = orderedPairs teams :=
    (fixturesPlayed_eq teams).trans (fixtureList_eq_orderedPairs teams hnd)
  refine ⟨?_, e, ?_, ?_, ?_, ?_⟩
  · intro lib L w
    rw [fixturesPlayed_eq]
    exact forEachFixture_eq_foldl teams _ w
  · intro h a
    rw [e]
    exact orderedPairs_mem teams h a
  · rw [e]
    exact orderedPairs_nodup teams hnd
  · rw [e]
    exact orderedPairs_length teams hnd
  · intro p hp
    rw [e] at hp
    exact orderedPairs_ne teams p hp

/-- Witness of the amended C4: the team list of league `leagueAB`. -/
theorem fixtures_of_distinct_teams_witness :
    (leagueAB.teams.map (·.id)).Nodup ∧
    fixturesPlayed leagueAB.teams = orderedPairs leagueAB.teams ∧
    (fixturesPlayed leagueAB.teams).length = 2 * (2 - 1) :=
  ⟨by decide, (fixtures_of_distinct_teams leagueAB.teams (by decide)).2.1,
    (fixtures_of_distinct_teams leagueAB.teams (by decide)).2.2.2.2.1⟩

theorem rowLeagues_append (lib : RandLib) (pre post : List League) (g : Nat)
    (r : StandingsRow) :
    rowLeagues lib (pre ++ post) g r
      = rowLeagues lib post (rngLeagues lib pre g) (rowLeagues lib pre g r) := by
  induction pre generalizing g r with
  | nil => rfl
  | cons lg ls ih =>
    show rowLeagues lib (lg :: (ls ++ post)) g r = _
    simp only [rowLeagues, rngLeagues]
    exact ih _ _

theorem rowLeagues_of_not_mem (lib : RandLib) (ls : List League) (g : Nat) (r : StandingsRow)
    (h : ∀ l ∈ ls, l.id ≠ r.league_id) : rowLeagues lib ls g r = r := by
  induction ls generalizing g with
  | nil => rfl
  | cons lg ls ih =>
    simp only [rowLeagues]
    rw [rowLeague_of_ne _ _ _ _ (fun e => h lg (List.mem_cons_self _ _) e.symm)]
    exact ih _ (fun l hl => h l (List.mem_cons_of_mem _ hl))

theorem fixtureList_pair (a b : Team) : fixtureList [a, b] = [(a, b), (b, a)] := by
  simp [fixtureList, fixtureAt, List.range_succ]

/-- C6 fails: when both fixtures of the two-team league are decisive the points of the
two rows are 3 and 3, which sum to 6. -/
theorem two_team_points_counterexample :
    (SimulateSeasonAllLeagues homeWinLib 0 0 sampleStore.toDatabase [leagueAB]).db.rows
      = [rowWinA, rowWinB] ∧
    rowWinA.points + rowWinB.points = 6 ∧
    ((SimulateSeasonAllLeagues homeWinLib 0 0 sampleStore.toDatabase
        [leagueAB]).db.rows.map (·.points)).sum ≠ 4 := by
  constructor <;> decide

theorem points_total (hg ag : Int) :
    homePoints hg ag + awayPoints hg ag = if hg = ag then 2 else 3 := by
  unfold homePoints awayPoints
  split_ifs <;> omega

theorem rowLeague_pair_points (lib : RandLib) (lg : League) (g : Nat) (x : StandingsRow)
    (a b : Team) (hteams : lg.teams = [a, b]) (hxl : x.league_id = lg.id) :
    (rowLeague lib lg g x).points
      = (if x.team_id = a.id then homePoints (drawGoals lib g).1 (drawGoals lib g).2.1 else 0)
        + (if x.team_id = b.id then awayPoints (drawGoals lib g).1 (drawGoals lib g).2.1 else 0)
        + (if x.team_id = b.id then
            homePoints (drawGoals lib (drawGoals lib g).2.2).1
              (drawGoals lib (drawGoals lib g).2.2).2.1 else 0)
        + (if x.team_id = a.id then
            awayPoints (drawGoals lib (drawGoals lib g).2.2).1
              (drawGoals lib (drawGoals lib g).2.2).2.1 else 0) := by
  unfold rowLeague
  rw [hteams, fixtureList_pair]
  simp only [rowPlay]
  generalize drawGoals lib (drawGoals lib g).2.2 = d2
  generalize drawGoals lib g = d1
  rw [rowRecord_points, rowRecord_points, rowRecord_team_id, rowRecord_league_id,
    rowReset_team_id, rowReset_league_id, rowReset_of_eq _ _ hxl]
  simp only [hxl, and_true, zero_add]

/-- C6, amended. For a league whose team list is the two teams A (id 1) and B (id 2),
after `SimulateSeasonAllLeagues` the points of a row of A and a row of B in that league
sum to 2 for each drawn fixture plus 3 for each decisive fixture of the league's two
fixtures: 4 for two draws, 5 for one of each, 6 for two decisive results.  The two
fixtures are those of the league's iteration `lg` of the loop, after which the list
`post` has no entry with its id; their goals are the first two draws from the
generator state the iterations of `pre` leave. -/
theorem two_team_points (lib : RandLib) (now g : Nat) (db : Database)
    (pre post : List League) (lg : League) (a b : Team)
    (hteams : lg.teams = [a, b]) (ha : a.id = 1) (hb : b.id = 2)
    (hpost : ∀ l ∈ post, l.id ≠ lg.id)
    (rA rB : StandingsRow)
    (hA : rA ∈ (SimulateSeasonAllLeagues lib now g db (pre ++ lg :: post)).db.rows)
    (hB : rB ∈ (SimulateSeasonAllLeagues lib now g db (pre ++ lg :: post)).db.rows)
    (hAk : rA.team_id = 1 ∧ rA.league_id = lg.id)
    (hBk : rB.team_id = 2 ∧ rB.league_id = lg.id) :
    rA.points + rB.points
      = fixtureTotal (drawGoals lib (rngLeagues lib pre (lib.seed (now % 2 ^ 32))))
        + fixtureTotal (drawGoals lib
            (drawGoals lib (rngLeagues lib pre (lib.seed (now % 2 ^ 32)))).2.2) ∧
    4 ≤ rA.points + rB.points ∧ rA.points + rB.points ≤ 6 := by
  have key : ∀ r ∈ (SimulateSeasonAllLeagues lib now g db (pre ++ lg :: post)).db.rows,
      r.league_id = lg.id → ∃ x : StandingsRow, x.league_id = lg.id ∧ x.team_id = r.team_id ∧
        r.points = (rowLeague lib lg (rngLeagues lib pre (lib.seed (now % 2 ^ 32))) x).points := by
    intro r hr hrl
    rw [simulate_rows, List.mem_map] at hr
    obtain ⟨r0, _, rfl⟩ := hr
    rw [rowLeagues_league_id] at hrl
    refine ⟨rowLeagues lib pre (lib.seed (now % 2 ^ 32)) r0, ?_, ?_, ?_⟩
    · rw [rowLeagues_league_id]; exact hrl
    · rw [rowLeagues_team_id, rowLeagues_team_id]
    · rw [rowLeagues_append]
      simp only [rowLeagues]
      rw [rowLeagues_of_not_mem]
      intro l hl
      rw [rowLeague_league_id, rowLeagues_league_id, hrl]
      exact hpost l hl
  obtain ⟨x, hxl, hxt, hxp⟩ := key rA hA hAk.2
  obtain ⟨y, hyl, hyt, hyp⟩ := key rB hB hBk.2
  rw [hAk.1] at hxt
  rw [hBk.1] at hyt
  have e : rA.points + rB.points
      = fixtureTotal (drawGoals lib (rngLeagues lib pre (lib.seed (now % 2 ^ 32))))
        + fixtureTotal (drawGoals lib
            (drawGoals lib (rngLeagues lib pre (lib.seed (now % 2 ^ 32)))).2.2) := by
    rw [hxp, hyp, rowLeague_pair_points lib lg _ x a b hteams hxl,
      rowLeague_pair_points lib lg _ y a b hteams hyl, hxt, hyt, ha, hb]
    simp only [fixtureTotal, ← points_total]
    norm_num
    ring
  refine ⟨e, ?_, ?_⟩ <;> rw [e] <;> simp only [fixtureTotal] <;> split_ifs <;> omega

/-- Witness of the amended C6: the sample store with two home wins, 3 + 3 points. -/
theorem two_team_points_witness :
    leagueAB.teams = [teamA, teamB] ∧ teamA.id = 1 ∧ teamB.id = 2 ∧
    rowWinA ∈ (SimulateSeasonAllLeagues homeWinLib 0 0 sampleStore.toDatabase
        ([] ++ leagueAB :: [])).db.rows ∧
    rowWinB ∈ (SimulateSeasonAllLeagues homeWinLib 0 0 sampleStore.toDatabase
        ([] ++ leagueAB :: [])).db.rows ∧
    (rowWinA.points + rowWinB.points
      = fixtureTotal (drawGoals homeWinLib (rngLeagues homeWinLib [] (homeWinLib.seed (0 % 2 ^ 32))))
        + fixtureTotal (drawGoals homeWinLib
            (drawGoals homeWinLib (rngLeagues homeWinLib [] (homeWinLib.seed (0 % 2 ^ 32)))).2.2) ∧
      4 ≤ rowWinA.points + rowWinB.points ∧ rowWinA.points + rowWinB.points ≤ 6) :=
  ⟨rfl, rfl, rfl, by decide, by decide,
    two_team_points homeWinLib 0 0 sampleStore.toDatabase [] [] leagueAB teamA teamB rfl rfl rfl
      (by decide) rowWinA rowWinB (by decide) (by decide) (by decide) (by decide)⟩

/-! ## Goals scored and conceded over a league -/

theorem countP_eq_one_of_nodup_map {α β : Type} [DecidableEq β] (f : α → β) (l : List α)
    (b : β) (hnd : (l.map f).Nodup) (h : b ∈ l.map f) :
    l.countP (fun a => decide (f a = b)) = 1 := by
  induction l with
  | nil => simp at h
  | cons a as ih =>
    rw [List.map_cons, List.nodup_cons] at hnd
    rw [List.countP_cons]
    by_cases hab : f a = b
    · subst hab
      have : as.countP (fun x => decide (f x = f a)) = 0 := by
        rw [List.countP_eq_zero]
        intro x hx hxa
        exact hnd.1 (List.mem_map.2 ⟨x, hx, by simpa using hxa⟩)
      rw [this]
      simp
    · rw [List.map_cons, List.mem_cons] at h
      rcases h with h | h
      · exact absurd h.symm hab
      · rw [ih hnd.2 h]
        simp [hab]

theorem sum_record_goals_scored (L home away hg ag : Int) (R : List StandingsRow)
    (hR : ∀ r ∈ R, r.league_id = L) :
    ((R.map (rowRecord L home away hg ag)).map (·.goals_scored)).sum
      = (R.map (·.goals_scored)).sum + hg * (R.countP (fun r => r.team_id == home) : Nat)
        + ag * (R.countP (fun r => r.team_id == away) : Nat) := by
  induction R with
  | nil => simp
  | cons r rs ih =>
    have hr : r.league_id = L := hR r (List.mem_cons_self _ _)
    simp only [List.map_cons, List.sum_cons, List.countP_cons]
    rw [ih (fun x hx => hR x (List.mem_cons_of_mem _ hx)), rowRecord_goals_scored]
    simp only [beq_iff_eq, hr, and_true]
    push_cast
    split_ifs <;> ring

theorem sum_record_goals_conceded (L home away hg ag : Int) (R : List StandingsRow)
    (hR : ∀ r ∈ R, r.league_id = L) :
    ((R.map (rowRecord L home away hg ag)).map (·.goals_conceded)).sum
      = (R.map (·.goals_conceded)).sum + ag * (R.countP (fun r => r.team_id == home) : Nat)
        + hg * (R.countP (fun r => r.team_id == away) : Nat) := by
  induction R with
  | nil => simp
  | cons r rs ih =>
    have hr : r.league_id = L := hR r (List.mem_cons_self _ _)
    simp only [List.map_cons, List.sum_cons, List.countP_cons]
    rw [ih (fun x hx => hR x (List.mem_cons_of_mem _ hx)), rowRecord_goals_conceded]
    simp only [beq_iff_eq, hr, and_true]
    push_cast
    split_ifs <;> ring

theorem countP_team_map (F : StandingsRow → StandingsRow)
    (hF : ∀ r, (F r).team_id = r.team_id) (R : List StandingsRow) (t : Int) :
    (R.map F).countP (fun r => r.team_id == t) = R.countP (fun r => r.team_id == t) := by
  rw [List.countP_map]
  apply List.countP_congr
  intro r _
  simp [hF r]

theorem balanced_record (L home away hg ag : Int) (R : List StandingsRow)
    (hR : ∀ r ∈ R, r.league_id = L)
    (hc : R.countP (fun r => r.team_id == home) = R.countP (fun r => r.team_id == away))
    (hb : Balanced R) : Balanced (R.map (rowRecord L home away hg ag)) := by
  unfold Balanced at *
  rw [sum_record_goals_scored L home away hg ag R hR,
    sum_record_goals_conceded L home away hg ag R hR, hb, hc]
  ring

theorem balanced_play (lib : RandLib) (L : Int) (fx : List (Team × Team)) (g : Nat)
    (R : List StandingsRow) (hR : ∀ r ∈ R, r.league_id = L)
    (hc : ∀ p ∈ fx, R.countP (fun r => r.team_id == p.1.id)
      = R.countP (fun r => r.team_id == p.2.id))
    (hb : Balanced R) : Balanced (R.map (rowPlay lib L fx g)) := by
  induction fx generalizing g R with
  | nil => simpa [rowPlay] using hb
  | cons p ps ih =>
    have e : R.map (rowPlay lib L (p :: ps) g)
        = (R.map (rowRecord L p.1.id p.2.id (drawGoals lib g).1 (drawGoals lib g).2.1)).map
            (rowPlay lib L ps (drawGoals lib g).2.2) := by
      rw [List.map_map]
      rfl
    rw [e]
    apply ih
    · intro r hr
      rw [List.mem_map] at hr
      obtain ⟨r0, hr0, rfl⟩ := hr
      rw [rowRecord_league_id]
      exact hR r0 hr0
    · intro q hq
      rw [countP_team_map _ (rowRecord_team_id _ _ _ _ _), countP_team_map _
        (rowRecord_team_id _ _ _ _ _)]
      exact hc q (List.mem_cons_of_mem _ hq)
    · exact balanced_record L _ _ _ _ R hR (hc p (List.mem_cons_self _ _)) hb

theorem balanced_league (lib : RandLib) (lg : League) (g : Nat) (R : List StandingsRow)
    (hR : ∀ r ∈ R, r.league_id = lg.id)
    (hc : ∀ t ∈ lg.teams, R.countP (fun r => r.team_id == t.id) = 1) :
    Balanced (R.map (rowLeague lib lg g)) := by
  have e : R.map (rowLeague lib lg g)
      = (R.map (rowReset lg.id)).map (rowPlay lib lg.id (fixtureList lg.teams) g) := by
    rw [List.map_map]
    rfl
  rw [e]
  apply balanced_play
  · intro r hr
    rw [List.mem_map] at hr
    obtain ⟨r0, hr0, rfl⟩ := hr
    rw [rowReset_league_id]
    exact hR r0 hr0
  · intro p hp
    obtain ⟨h1, h2⟩ := fixtureList_mem lg.teams p hp
    rw [countP_team_map _ (rowReset_team_id _), countP_team_map _ (rowReset_team_id _),
      hc p.1 h1, hc p.2 h2]
  · unfold Balanced
    have hz : ∀ (f : StandingsRow → Int), (∀ r, r.league_id = lg.id → f (rowReset lg.id r) = 0) →
        ((R.map (rowReset lg.id)).map f).sum = 0 := by
      intro f hf
      apply List.sum_eq_zero
      intro x hx
      simp only [List.mem_map] at hx
      obtain ⟨y, ⟨r, hr, rfl⟩, rfl⟩ := hx
      exact hf r (hR r hr)
    rw [hz _ (fun r hr => by rw [rowReset_of_eq _ _ hr]),
      hz _ (fun r hr => by rw [rowReset_of_eq _ _ hr])]

theorem balanced_leagues (lib : RandLib) (L : Int) (T : List Team) (ls : List League) (g : Nat)
    (R : List StandingsRow) (hR : ∀ r ∈ R, r.league_id = L)
    (hT : ∀ l ∈ ls, l.id = L → l.teams = T)
    (hc : ∀ t ∈ T, R.countP (fun r => r.team_id == t.id) = 1)
    (h : Balanced R ∨ ∃ l ∈ ls, l.id = L) : Balanced (R.map (rowLeagues lib ls g)) := by
  induction ls generalizing g R with
  | nil =>
    rcases h with h | ⟨l, hl, _⟩
    · simpa [rowLeagues] using h
    · simp at hl
  | cons lg ls ih =>
    have e : R.map (rowLeagues lib (lg :: ls) g)
        = (R.map (rowLeague lib lg g)).map
            (rowLeagues lib ls (rngPlay lib (fixtureList lg.teams) g)) := by
      rw [List.map_map]
      rfl
    rw [e]
    apply ih
    · intro r hr
      rw [List.mem_map] at hr
      obtain ⟨r0, hr0, rfl⟩ := hr
      rw [rowLeague_league_id]
      exact hR r0 hr0
    · exact fun l hl => hT l (List.mem_cons_of_mem _ hl)
    · intro t ht
      rw [countP_team_map _ (rowLeague_team_id _ _ _)]
      exact hc t ht
    · by_cases hid : lg.id = L
      · left
        apply balanced_league lib lg g R (fun r hr => (hR r hr).trans hid.symm)
        intro t ht
        exact hc t (hT lg (List.mem_cons_self _ _) hid ▸ ht)
      · have e2 : R.map (rowLeague lib lg g) = R := by
          conv_rhs => rw [← List.map_id R]
          apply List.map_congr_left
          intro r hr
          rw [rowLeague_of_ne _ _ _ _ (by rw [hR r hr]; exact fun e' => hid e'.symm)]
          rfl
        rw [e2]
        rcases h with h | ⟨l, hl, hlid⟩
        · exact Or.inl h
        · rcases List.mem_cons.1 hl with rfl | hl
          · exact absurd hlid hid
          · exact Or.inr ⟨l, hl, hlid⟩

theorem sum_sub_of_forall (R : List StandingsRow)
    (h : ∀ r ∈ R, r.goal_diff = r.goals_scored - r.goals_conceded) :
    (R.map (·.goal_diff)).sum
      = (R.map (·.goals_scored)).sum - (R.map (·.goals_conceded)).sum := by
  induction R with
  | nil => simp
  | cons r rs ih =>
    simp only [List.map_cons, List.sum_cons]
    rw [ih (fun x hx => h x (List.mem_cons_of_mem _ hx)), h r (List.mem_cons_self _ _)]
    ring

/-- C10 fails for a store whose team A has the id 2^32 + 1: the league is loaded with the
team ids 2 and 1, the store holds one row per membership, and after the simulation the
league's rows hold 1 goal scored and 5 goals conceded in all, and their goal differences
sum to -4. -/
theorem goals_balance_counterexample :
    (LoadLeaguesAndTeams wideIdStore.toDatabase []).2
      = [{ id := 1, name := "L", teams := [{ id := 2, name := "B" }, { id := 1, name := "A" }] }] ∧
    (wideIdStore.LeagueTable.map StandingsRow.key).Nodup ∧
    ((leagueRows (SimulateSeasonAllLeagues counterLib 1 0 wideIdStore.toDatabase
        (LoadLeaguesAndTeams wideIdStore.toDatabase []).2).db 1).map (·.goals_scored)).sum = 1 ∧
    ((leagueRows (SimulateSeasonAllLeagues counterLib 1 0 wideIdStore.toDatabase
        (LoadLeaguesAndTeams wideIdStore.toDatabase []).2).db 1).map (·.goals_conceded)).sum = 5 ∧
    ((leagueRows (SimulateSeasonAllLeagues counterLib 1 0 wideIdStore.toDatabase
        (LoadLeaguesAndTeams wideIdStore.toDatabase []).2).db 1).map (·.goal_diff)).sum = -4 := by
  refine ⟨?_, ?_, ?_, ?_, ?_⟩ <;> decide

/-- C10, amended. After `SimulateSeasonAllLeagues`, for a league `lg` of the league list
whose team list is the one `LoadLeaguesAndTeams` yields for the store (`hload`, as in
C1), in a store with one `LeagueTable` row per (team, league) membership (`hone`) and
the ids of the league's teams in the range of a C `int` (`hrange`), the goals scored
summed over the league's standings rows equal the goals conceded summed over the same
rows, and the league's goal differences sum to zero, whatever the generator draws. -/
theorem goals_balance_after_simulation (lib : RandLib) (now g : Nat) (s : Store)
    (leagues : List League) (lg : League) (hlg : lg ∈ leagues)
    (hload : ∀ l ∈ leagues, l.id = lg.id → l.teams = loadedTeams s.toDatabase lg.id)
    (hone : (s.LeagueTable.map StandingsRow.key).Nodup)
    (hrange : TeamIdsInRange s.Teams s.LeagueTable lg.id) :
    ((leagueRows (SimulateSeasonAllLeagues lib now g s.toDatabase leagues).db lg.id).map
        (·.goals_scored)).sum
      = ((leagueRows (SimulateSeasonAllLeagues lib now g s.toDatabase leagues).db lg.id).map
        (·.goals_conceded)).sum ∧
    ((leagueRows (SimulateSeasonAllLeagues lib now g s.toDatabase leagues).db lg.id).map
        (·.goal_diff)).sum = 0 := by
  have hrows : leagueRows (SimulateSeasonAllLeagues lib now g s.toDatabase leagues).db lg.id
      = (leagueRows s.toDatabase lg.id).map
          (rowLeagues lib leagues (lib.seed (now % 2 ^ 32))) := by
    unfold leagueRows
    rw [simulate_rows, List.filter_map]
    congr 1
    apply List.filter_congr
    intro r _
    simp [rowLeagues_league_id]
  have hR : ∀ r ∈ leagueRows s.toDatabase lg.id, r.league_id = lg.id := by
    intro r hr
    unfold leagueRows at hr
    simpa using (List.mem_filter.1 hr).2
  have hbal : Balanced
      (leagueRows (SimulateSeasonAllLeagues lib now g s.toDatabase leagues).db lg.id) := by
    rw [hrows]
    apply balanced_leagues lib lg.id (loadedTeams s.toDatabase lg.id) leagues _ _ hR hload ?_
      (Or.inr ⟨lg, hlg, rfl⟩)
    intro t ht
    obtain ⟨r, hr, hrt, hrl⟩ := loadedTeams_mem s lg.id t hrange ht
    have h1 := countP_eq_one_of_nodup_map StandingsRow.key s.toDatabase.rows (t.id, lg.id) hone
      (List.mem_map.2 ⟨r, hr, by simp [StandingsRow.key, hrt, hrl]⟩)
    unfold leagueRows
    rw [List.countP_filter, ← h1]
    apply List.countP_congr
    intro x _
    simp only [StandingsRow.key, Bool.and_eq_true, beq_iff_eq, Prod.mk.injEq, decide_eq_true_eq]
  refine ⟨hbal, ?_⟩
  rw [sum_sub_of_forall, hbal, sub_self]
  intro r hr
  rw [hrows, List.mem_map] at hr
  obtain ⟨r0, hr0, rfl⟩ := hr
  exact rowLeagues_goal_diff lib leagues _ r0
    (List.mem_map.2 ⟨lg, hlg, (hR r0 hr0).symm⟩)

/-- Witness of the amended C10: the sample store, simulated with the league list it
loads. -/
theorem goals_balance_after_simulation_witness :
    leagueAB ∈ (LoadLeaguesAndTeams sampleStore.toDatabase []).2 ∧
    (∀ l ∈ (LoadLeaguesAndTeams sampleStore.toDatabase []).2, l.id = leagueAB.id →
      l.teams = loadedTeams sampleStore.toDatabase leagueAB.id) ∧
    (sampleStore.LeagueTable.map StandingsRow.key).Nodup ∧
    TeamIdsInRange sampleStore.Teams sampleStore.LeagueTable leagueAB.id ∧
    (((leagueRows (SimulateSeasonAllLeagues counterLib 1 0 sampleStore.toDatabase
          (LoadLeaguesAndTeams sampleStore.toDatabase []).2).db leagueAB.id).map
        (·.goals_scored)).sum
      = ((leagueRows (SimulateSeasonAllLeagues counterLib 1 0 sampleStore.toDatabase
          (LoadLeaguesAndTeams sampleStore.toDatabase []).2).db leagueAB.id).map
        (·.goals_conceded)).sum ∧
    ((leagueRows (SimulateSeasonAllLeagues counterLib 1 0 sampleStore.toDatabase
          (LoadLeaguesAndTeams sampleStore.toDatabase []).2).db leagueAB.id).map
        (·.goal_diff)).sum = 0) :=
  ⟨by decide, by decide, by decide, by unfold TeamIdsInRange InIntRange; decide,
    goals_balance_after_simulation counterLib 1 0 sampleStore
      (LoadLeaguesAndTeams sampleStore.toDatabase []).2 leagueAB
      (by decide) (by decide) (by decide) (by unfold TeamIdsInRange InIntRange; decide)⟩

end FootballSim
